import Mathlib

/-!
# Session store, entitlement cache and submission flows

A shallow embedding of `src/AppContext.js` (the application-wide provider), of
`src/add-business.js` (the business-listing screen), of `src/sales-executive-form.js`
(the job-application screen) and of `src/database.js` (the client module).

Conventions of the embedding.

* React state is a record; a setter call is a record update.
* An `await` on an external service is answered by an environment function; the
  answer is either a resolved value or a rejection (`Awaited`).
* Every external call, console call and alert is appended to an effect trace, so
  that "no call was issued" is a statement about the trace.
* An `async` function that can still throw returns a `Completion`.
-/

/-- A JavaScript error value: `message`, and the `code` carried by data-service errors. -/
structure JsError where
  message : String
  code : Option String
deriving DecidableEq, Repr

/-- What an awaited promise settles to. -/
inductive Awaited (α : Type) where
  | resolved (value : α)
  | rejected (reason : JsError)
deriving DecidableEq, Repr

/-- How a call of a function ends: it returns, or an exception leaves it. -/
inductive Completion (α : Type) where
  | returned (value : α)
  | threw (reason : JsError)
deriving DecidableEq, Repr

/-- A value used as an identifier argument: `null`, `undefined` or a string. -/
inductive JsId where
  | null
  | undefined
  | str (s : String)
deriving DecidableEq, Repr

/-- JavaScript truthiness of a string: every string but the empty one. -/
def truthyStr (s : String) : Bool := s != ""

/-- JavaScript truthiness of an identifier argument (`!userId` is its negation). -/
def JsId.truthy : JsId → Bool
  | JsId.null => false
  | JsId.undefined => false
  | JsId.str s => truthyStr s

namespace AppContext

/-- The auth service user object, reduced to the attributes the provider reads. -/
structure User where
  id : String
  email : String
deriving DecidableEq, Repr

/-- The auth service session: a token bundle and the associated user. -/
structure Session where
  user : Option User
  accessToken : String
deriving DecidableEq, Repr

/-- A row of `profiles` restricted to the selected column; `none` is SQL null. -/
structure ProfileRow where
  is_premium : Option Bool
deriving DecidableEq, Repr

/-- The `{ data, error }` object a `maybeSingle()` query resolves to. -/
structure ProfileResponse where
  data : Option ProfileRow
  error : Option JsError
deriving DecidableEq, Repr

/-- The `useState` cells of `AppProvider` that the session logic writes. -/
structure ProviderState where
  session : Option Session
  user : Option User
  isLoadingSession : Bool
  isPremiumStatus : Bool
deriving DecidableEq, Repr

/-- The values of the `useState` initialisers (lines 11-15). -/
def ProviderState.initial : ProviderState :=
  { session := none, user := none, isLoadingSession := true, isPremiumStatus := false }

/-- The payload handed to `supabase.from("businesses").insert([payload])`. -/
structure BusinessPayload where
  id : String
  name : String
  category : String
  owner_name : String
  phone : String
  description : String
  reference_id : String
  images : List String
  video : Option String
  owner_id : Option String
  created_at : String
deriving DecidableEq, Repr

/-- Observable calls made by the provider, in program order. -/
inductive Call where
  | profilesQuery (userId : String)
  | consoleError (label : String)
  | consoleWarn (label : String)
  | consoleLog (label : String)
  | uploadMedia (uri : String) (path : String)
  | businessesInsert (payload : BusinessPayload)
deriving DecidableEq, Repr

/-- Calls that reach the data service. -/
def Call.isDataService : Call → Bool
  | Call.profilesQuery _ => true
  | Call.businessesInsert _ => true
  | _ => false

/-- The `isPremium` accessor (line 242): a read of the cached flag. -/
def isPremium (st : ProviderState) : Bool := st.isPremiumStatus

/-- The guard `error && error.code !== "PGRST116"` (line 38). -/
def isGenuineError (error : Option JsError) : Bool :=
  match error with
  | none => false
  | some e => e.code != some "PGRST116"

/-- The expression `profile?.is_premium || false` (line 45). -/
def premiumOf (profile : Option ProfileRow) : Bool :=
  match profile with
  | none => false
  | some row => row.is_premium.getD false

/-- The synchronous head of `loadUserProfileData` (lines 23-36): either the early
return for a falsy `userId`, or the query is issued and its identity is returned
as the fetch now in flight. -/
def loadUserProfileDataStart (userId : JsId) (st : ProviderState) :
    ProviderState × Option String × List Call :=
  match userId with
  | JsId.str s =>
    if truthyStr s then (st, some s, [Call.profilesQuery s])
    else ({ st with isPremiumStatus := false }, none, [])
  | _ => ({ st with isPremiumStatus := false }, none, [])

/-- The continuation of `loadUserProfileData` after the awaited query settles
(lines 38-50). It reads neither the identity the query was issued for nor the
current user. -/
def loadUserProfileDataResume (r : Awaited ProfileResponse) (st : ProviderState) :
    Completion Unit × ProviderState × List Call :=
  match r with
  | Awaited.resolved resp =>
    if isGenuineError resp.error then
      (Completion.returned (), { st with isPremiumStatus := false },
        [Call.consoleError "Error loading user profile:"])
    else
      (Completion.returned (), { st with isPremiumStatus := premiumOf resp.data }, [])
  | Awaited.rejected _ =>
    (Completion.returned (), { st with isPremiumStatus := false },
      [Call.consoleError "Profile fetch exception:"])

/-- The whole of `loadUserProfileData` (lines 23-51) run to completion against a data
service `db` that answers the profile query for a given identity. A client that is
`null` makes `supabase.from` throw inside the `try`, which is a rejection here. -/
def loadUserProfileData (db : String → Awaited ProfileResponse) (userId : JsId)
    (st : ProviderState) : Completion Unit × ProviderState × List Call :=
  match loadUserProfileDataStart userId st with
  | (st1, none, calls) => (Completion.returned (), st1, calls)
  | (st1, some identity, calls) =>
    match loadUserProfileDataResume (db identity) st1 with
    | (c, st2, calls2) => (c, st2, calls ++ calls2)

/-- The synchronous body of `handleSession` (lines 57-69): the state after its setter
calls, and the identity of the profile fetch it leaves in flight, if any. -/
def handleSession (authSession : Option Session) (st : ProviderState) :
    ProviderState × Option String × List Call :=
  let currentUser : Option User := authSession.bind (fun s => s.user)
  let st1 : ProviderState :=
    { session := authSession, user := currentUser, isLoadingSession := false,
      isPremiumStatus := st.isPremiumStatus }
  match currentUser with
  | some u =>
    if truthyStr u.id then loadUserProfileDataStart (JsId.str u.id) st1
    else ({ st1 with isPremiumStatus := false }, none, [])
  | none => ({ st1 with isPremiumStatus := false }, none, [])

/-- The callback registered with `onAuthStateChange` (lines 80-85). -/
def onAuthStateChange (event : String) (authSession : Option Session) (st : ProviderState) :
    ProviderState × Option String × List Call :=
  let st1 : ProviderState :=
    if event == "SIGNED_IN" || event == "SIGNED_OUT" then { st with isLoadingSession := true }
    else st
  handleSession authSession st1

/-- The argument of `addBusiness`. A field that may be missing on the JavaScript
object is an `Option`; `images = none` makes `businessData.images.length` throw. -/
structure BusinessData where
  name : String
  category : String
  ownerName : String
  phone : String
  description : Option String
  referenceId : Option String
  images : Option (List String)
  video : Option String
deriving DecidableEq, Repr

/-- The services `addBusiness` consults: the clock (`Date.now()` at its `k`-th reading),
the identifier generator, the ISO timestamp, and the answer of the insert. -/
structure ProviderEnv where
  now : Nat → Nat
  uuid : String
  isoNow : String
  insert : BusinessPayload → Awaited (Option JsError)

/-- The object `addBusiness` returns: `{ success: true }` or `{ success: false, error }`. -/
inductive AddResult where
  | success
  | failure (error : JsError)
deriving DecidableEq, Repr

/-- The error thrown by the protection check of `addBusiness` (line 168). -/
def premiumRequired : JsError :=
  { message := "Only premium members can add a business.", code := none }

/-- The error raised by reading `.length` of a missing `images` property. -/
def imagesTypeError : JsError :=
  { message := "TypeError: cannot read properties of undefined", code := none }

/-- The stub `uploadMedia` (lines 158-161): warns and returns a mock URL. -/
def uploadMedia (uri path : String) : String × List Call :=
  ("https://mock-url.com/" ++ path,
    [Call.uploadMedia uri path,
     Call.consoleWarn "Supabase Storage: uploadMedia logic needs implementation."])

/-- The image loop of `addBusiness` (lines 171-178), from index `i` on. -/
def uploadImagesLoop (env : ProviderEnv) : List String → Nat → List String × List Call
  | [], _ => ([], [])
  | uri :: rest, i =>
    let r := uploadMedia uri
      ("businesses/" ++ toString (env.now i) ++ "/image_" ++ toString i ++ ".jpg")
    let rs := uploadImagesLoop env rest (i + 1)
    (r.1 :: rs.1, r.2 ++ rs.2)

/-- The `try` block of `addBusiness` (lines 165-211). -/
def addBusinessBody (env : ProviderEnv) (st : ProviderState) (businessData : BusinessData) :
    Except JsError Unit × List Call :=
  if !st.isPremiumStatus then (Except.error premiumRequired, [])
  else
    match businessData.images with
    | none => (Except.error imagesTypeError, [])
    | some imgs =>
      let uploaded := uploadImagesLoop env imgs 0
      let video : Option String × List Call :=
        match businessData.video with
        | some v =>
          if truthyStr v then
            let r := uploadMedia v
              ("businesses/" ++ toString (env.now imgs.length) ++ "/video.mp4")
            (some r.1, r.2)
          else (none, [])
        | none => (none, [])
      let payload : BusinessPayload :=
        { id := env.uuid,
          name := businessData.name,
          category := businessData.category,
          owner_name := businessData.ownerName,
          phone := businessData.phone,
          description := businessData.description.getD "",
          reference_id := businessData.referenceId.getD "",
          images := uploaded.1,
          video := video.1,
          owner_id := st.user.bind (fun u => if truthyStr u.id then some u.id else none),
          created_at := env.isoNow }
      let calls := uploaded.2 ++ video.2 ++ [Call.businessesInsert payload]
      match env.insert payload with
      | Awaited.rejected e => (Except.error e, calls)
      | Awaited.resolved (some e) => (Except.error e, calls)
      | Awaited.resolved none => (Except.ok (), calls)

/-- The function `addBusiness` (lines 163-216): the `try` block and its `catch`. -/
def addBusiness (env : ProviderEnv) (st : ProviderState) (businessData : BusinessData) :
    Completion AddResult × List Call :=
  match addBusinessBody env st businessData with
  | (Except.ok _, calls) => (Completion.returned AddResult.success, calls)
  | (Except.error e, calls) =>
    (Completion.returned (AddResult.failure e), calls ++ [Call.consoleLog "ADD BUSINESS ERROR:"])

/-- Calls of `addBusiness` that upload media or insert the listing. -/
def Call.isUploadOrInsert : Call → Bool
  | Call.uploadMedia _ _ => true
  | Call.businessesInsert _ => true
  | _ => false

/-- The provider together with the profile fetches still in flight, oldest first.
Each entry is the identity the fetch was issued for. -/
structure World where
  st : ProviderState
  pending : List String
deriving DecidableEq, Repr

/-- The world at mount, before the initial session check settles. -/
def World.initial : World := { st := ProviderState.initial, pending := [] }

/-- The two kinds of step of the provider: an auth event is delivered, or the
`k`-th fetch in flight settles with `r`. -/
inductive Step where
  | authEvent (event : String) (authSession : Option Session)
  | fetchSettles (k : Nat) (r : Awaited ProfileResponse)
deriving DecidableEq, Repr

/-- One step of the provider. A `fetchSettles` for an index with no fetch in flight
does nothing. -/
def step (w : World) : Step → World
  | Step.authEvent event authSession =>
    match onAuthStateChange event authSession w.st with
    | (st1, none, _) => { st := st1, pending := w.pending }
    | (st1, some identity, _) => { st := st1, pending := w.pending ++ [identity] }
  | Step.fetchSettles k r =>
    if k < w.pending.length then
      { st := (loadUserProfileDataResume r w.st).2.1, pending := w.pending.eraseIdx k }
    else w

/-- Run a sequence of steps from a world. -/
def run (w : World) (steps : List Step) : World := steps.foldl step w

/-- The identity of the current user, when there is one. -/
def currentIdentity (st : ProviderState) : Option String := st.user.map (fun u => u.id)

end AppContext

namespace AddBusinessScreen

/-- The storage bucket of the screen (line 24). -/
def BUSINESS_BUCKET : String := "business-uploads"

/-- The seven empty image slots (line 32). -/
def INITIAL_IMAGES_STATE : List (Option String) := List.replicate 7 none

/-- The picked location object; coordinates are kept as their decimal text. -/
structure GeoPoint where
  latitude : String
  longitude : String
  address : String
deriving DecidableEq, Repr

/-- The `formData` state cell (lines 41-56). An image slot is `null` or a URI. -/
structure FormData where
  name : String
  category : String
  ownerName : String
  phone : String
  description : String
  referenceId : String
  address : String
  latitude : String
  longitude : String
  location : Option GeoPoint
  images : List (Option String)
  video : Option String
  workingHours : String
  supportsHomeDelivery : String
deriving DecidableEq, Repr

/-- The initial value of `formData`, also the value it is reset to (lines 277-292). -/
def initialFormData : FormData :=
  { name := "", category := "", ownerName := "", phone := "", description := "",
    referenceId := "", address := "", latitude := "", longitude := "", location := none,
    images := INITIAL_IMAGES_STATE, video := none, workingHours := "",
    supportsHomeDelivery := "No" }

/-- The state cells of the screen. -/
structure ScreenState where
  formData : FormData
  locating : Bool
  isUploading : Bool
deriving DecidableEq, Repr

/-- What the screen takes from `useApp()` (line 37); `isPremium` is the value a call of
the accessor would return. -/
structure AppCtx where
  session : Option AppContext.Session
  isPremium : Bool
  isLoadingSession : Bool
deriving DecidableEq, Repr

/-- The parameter bag of the `insert_business_data` RPC (lines 256-271).
`p_latitude` and `p_longitude` hold the text given to `parseFloat`. -/
structure RpcParams where
  p_name : String
  p_category : String
  p_owner_name : String
  p_phone : String
  p_description : String
  p_reference_id : String
  p_address : String
  p_latitude : String
  p_longitude : String
  p_working_hours : String
  p_supports_home_delivery : Bool
  p_image_urls : List String
  p_video_url : Option String
  p_owner_id : String
deriving DecidableEq, Repr

/-- Observable calls of the screen, in program order. -/
inductive Effect where
  | alert (title : String) (message : String)
  | fetch (uri : String)
  | storageUpload (bucket : String) (path : String) (contentType : String)
  | getPublicUrl (bucket : String) (path : String)
  | rpc (fn : String) (params : RpcParams)
deriving DecidableEq, Repr

/-- A call that leaves the device: a fetch, a storage call or an RPC. -/
def Effect.isExternal : Effect → Bool
  | Effect.alert _ _ => false
  | _ => true

/-- A storage upload. -/
def Effect.isUpload : Effect → Bool
  | Effect.storageUpload _ _ _ => true
  | _ => false

/-- The RPC calls of a trace, in order: function name and parameter bag. -/
def rpcCallsOf : List Effect → List (String × RpcParams)
  | [] => []
  | Effect.rpc fn params :: rest => (fn, params) :: rpcCallsOf rest
  | _ :: rest => rpcCallsOf rest

/-- The number of storage uploads in a trace. -/
def uploadCount (t : List Effect) : Nat := (t.filter Effect.isUpload).length

/-- The `Response` of `fetch`: its `ok` flag, status and the settlement of `arrayBuffer()`. -/
structure Response where
  ok : Bool
  status : Nat
  arrayBuffer : Awaited String

/-- The services the screen consults. `now k` is `Date.now()` at its `k`-th reading;
`toLowerCase` is the built-in `String.prototype.toLowerCase`.
A client that is `null` makes the storage or RPC expression throw inside the `try`,
which is a rejection of that call here. -/
structure Env where
  now : Nat → Nat
  toLowerCase : String → String
  fetch : String → Awaited Response
  storageUpload : String → String → String → Awaited (Option JsError)
  getPublicUrl : String → String → String
  rpc : String → RpcParams → Awaited (Option JsError)

/-- Every upload succeeds: fetches are ok and yield bytes, and storage uploads resolve
without an error. Nothing is asked of the RPC. -/
def Env.uploadsSucceed (env : Env) : Prop :=
  (∀ uri, ∃ status buf, env.fetch uri =
      Awaited.resolved { ok := true, status := status, arrayBuffer := Awaited.resolved buf }) ∧
  (∀ bucket path mime, env.storageUpload bucket path mime = Awaited.resolved none)

/-- Every external call succeeds: fetches are ok and yield bytes, uploads and the RPC
resolve without an error. -/
def Env.allSucceed (env : Env) : Prop :=
  (∀ uri, ∃ status buf, env.fetch uri =
      Awaited.resolved { ok := true, status := status, arrayBuffer := Awaited.resolved buf }) ∧
  (∀ bucket path mime, env.storageUpload bucket path mime = Awaited.resolved none) ∧
  (∀ fn params, env.rpc fn params = Awaited.resolved none)

/-- JavaScript truthiness of an image or video slot: a non-empty string. -/
def truthySlot : Option String → Bool
  | none => false
  | some s => truthyStr s

/-- The helper `uriToBuffer` (lines 73-79). -/
def uriToBuffer (env : Env) (uri : String) : Except JsError String × List Effect :=
  match env.fetch uri with
  | Awaited.rejected e => (Except.error e, [Effect.fetch uri])
  | Awaited.resolved response =>
    if !response.ok then
      (Except.error { message := "Failed to fetch URI: " ++ toString response.status,
                      code := none }, [Effect.fetch uri])
    else
      match response.arrayBuffer with
      | Awaited.rejected e => (Except.error e, [Effect.fetch uri])
      | Awaited.resolved buffer => (Except.ok buffer, [Effect.fetch uri])

/-- The expression `uri.split(".").pop().toLowerCase()` (line 203): the text after
the last dot, the whole text when there is none, lowered by the built-in. -/
def fileExtension (env : Env) (uri : String) : String :=
  env.toLowerCase (String.mk ((uri.toList.reverse.takeWhile (fun c => c != '.')).reverse))

/-- The expression `session?.user?.id || fallback`. -/
def sessionUserIdOr (session : Option AppContext.Session) (fallback : String) : String :=
  match session.bind (fun s => s.user) with
  | some u => if truthyStr u.id then u.id else fallback
  | none => fallback

/-- The storage path of `uploadFile` (lines 206-207), `k` being the number of clock
readings made so far. -/
def uploadPath (env : Env) (session : Option AppContext.Session) (k : Nat)
    (uri type index : String) : String :=
  sessionUserIdOr session "anonymous" ++ "/" ++ toString (env.now k) ++ "_" ++ type ++ "_"
    ++ index ++ "." ++ fileExtension env uri

/-- The content type of `uploadFile` (line 208). -/
def uploadMime (env : Env) (uri type : String) : String :=
  if type == "video" then "video/" ++ fileExtension env uri
  else "image/" ++ fileExtension env uri

/-- The inner function `uploadFile` (lines 201-222), with `k` the number of clock
readings made so far. -/
def uploadFile (env : Env) (session : Option AppContext.Session) (k : Nat)
    (uri type index : String) : Except JsError String × List Effect :=
  match uriToBuffer env uri with
  | (Except.error e, t) => (Except.error e, t)
  | (Except.ok _, t) =>
    let path := uploadPath env session k uri type index
    let mime := uploadMime env uri type
    let t1 := t ++ [Effect.storageUpload BUSINESS_BUCKET path mime]
    match env.storageUpload BUSINESS_BUCKET path mime with
    | Awaited.rejected e => (Except.error e, t1)
    | Awaited.resolved (some e) => (Except.error e, t1)
    | Awaited.resolved none =>
      (Except.ok (env.getPublicUrl BUSINESS_BUCKET path),
        t1 ++ [Effect.getPublicUrl BUSINESS_BUCKET path])

/-- The image loop (lines 225-232) from slot index `i` on, `k` clock readings made so
far; it yields the URLs pushed from there on and the number of clock readings. -/
def uploadImages (env : Env) (session : Option AppContext.Session) :
    List (Option String) → Nat → Nat → Except JsError (List String × Nat) × List Effect
  | [], _, k => (Except.ok ([], k), [])
  | slot :: rest, i, k =>
    match slot with
    | some uri =>
      if truthyStr uri then
        match uploadFile env session k uri "image" (toString (i + 1)) with
        | (Except.error e, t) => (Except.error e, t)
        | (Except.ok url, t) =>
          match uploadImages env session rest (i + 1) (k + 1) with
          | (Except.error e, t2) => (Except.error e, t ++ t2)
          | (Except.ok (urls, k2), t2) => (Except.ok (url :: urls, k2), t ++ t2)
      else uploadImages env session rest (i + 1) k
    | none => uploadImages env session rest (i + 1) k

/-- The `try` block of `handleSubmit` (lines 165-292) up to and including the RPC. -/
def submitBody (ctx : AppCtx) (env : Env) (formData : FormData) :
    Except JsError Unit × List Effect :=
  match uploadImages env ctx.session formData.images 0 0 with
  | (Except.error e, t) => (Except.error e, t)
  | (Except.ok (uploadedImageUrls, k), t) =>
    let video : Except JsError (Option String) × List Effect :=
      match formData.video with
      | some v =>
        if truthyStr v then
          match uploadFile env ctx.session k v "video" "main" with
          | (Except.error e, tv) => (Except.error e, tv)
          | (Except.ok url, tv) => (Except.ok (some url), tv)
        else (Except.ok none, [])
      | none => (Except.ok none, [])
    match video with
    | (Except.error e, tv) => (Except.error e, t ++ tv)
    | (Except.ok videoUrl, tv) =>
      let params : RpcParams :=
        { p_name := formData.name,
          p_category := formData.category,
          p_owner_name := formData.ownerName,
          p_phone := formData.phone,
          p_description := formData.description,
          p_reference_id := formData.referenceId,
          p_address := formData.address,
          p_latitude := formData.latitude,
          p_longitude := formData.longitude,
          p_working_hours := formData.workingHours,
          p_supports_home_delivery := formData.supportsHomeDelivery == "Yes",
          p_image_urls := uploadedImageUrls,
          p_video_url := videoUrl,
          p_owner_id := sessionUserIdOr ctx.session "00000000-0000-0000-0000-000000000000" }
      let t1 := t ++ tv ++ [Effect.rpc "insert_business_data" params]
      match env.rpc "insert_business_data" params with
      | Awaited.rejected e => (Except.error e, t1)
      | Awaited.resolved (some e) => (Except.error e, t1)
      | Awaited.resolved none => (Except.ok (), t1)

/-- The function `handleSubmit` of the screen (lines 142-299): the state it leaves
and the calls it made. It never reads `ctx.isPremium`. -/
def handleSubmit (ctx : AppCtx) (env : Env) (s : ScreenState) : ScreenState × List Effect :=
  if !truthyStr s.formData.name || !truthyStr s.formData.category then
    (s, [Effect.alert "Error" "Please fill all required fields"])
  else if !(s.formData.images.any (fun uri => uri != none)) then
    (s, [Effect.alert "Missing Image" "Upload at least one image."])
  else
    let t0 := [Effect.alert "Uploading" "Please wait..."]
    match submitBody ctx env s.formData with
    | (Except.ok _, t) =>
      ({ s with formData := initialFormData, isUploading := false },
        t0 ++ t ++ [Effect.alert "Success" "Business Published successfully!"])
    | (Except.error e, t) =>
      ({ s with isUploading := false }, t0 ++ t ++ [Effect.alert "Error" e.message])

end AddBusinessScreen

namespace AddBusinessScreen

/-- Follows the claim on upload order: the non-null slots in increasing slot order,
each with its zero-based slot number. -/
def selectedSlots (slots : List (Option String)) : List (Nat × String) :=
  (slots.enumFrom 0).filterMap (fun p => p.2.map (fun uri => (p.1, uri)))

/-- Follows the claim on upload order: the public URLs obtained by uploading the
selected slots one after the other, slot `i` under index `i + 1`, the `k`-th upload
taking the `k`-th clock reading. -/
def expectedImageUrls (env : Env) (session : Option AppContext.Session)
    (slots : List (Option String)) : List String :=
  ((selectedSlots slots).enumFrom 0).map (fun q =>
    env.getPublicUrl BUSINESS_BUCKET
      (uploadPath env session q.1 q.2.2 "image" (toString (q.2.1 + 1))))

/-- Follows the amended claim on upload order: the slots that hold a non-empty URI, in
increasing slot order, each with its zero-based slot number. -/
def pickedSlots (slots : List (Option String)) : List (Nat × String) :=
  (slots.enumFrom 0).filterMap (fun p =>
    match p.2 with
    | some uri => if truthyStr uri then some (p.1, uri) else none
    | none => none)

/-- Follows the amended claim on upload order: the public URLs obtained by uploading
the picked slots one after the other, slot `i` under index `i + 1`, the `k`-th upload
taking the `k`-th clock reading. -/
def expectedPickedUrls (env : Env) (session : Option AppContext.Session)
    (slots : List (Option String)) : List String :=
  ((pickedSlots slots).enumFrom 0).map (fun q =>
    env.getPublicUrl BUSINESS_BUCKET
      (uploadPath env session q.1 q.2.2 "image" (toString (q.2.1 + 1))))

/-- The image uploads of the loop (lines 227-232) in the order it makes them, from slot
index `i` on with `k` clock readings made: one call of `uploadFile` per truthy slot.
The loop makes a call only when those before it succeeded, and then `k` is the number
of clock readings it has made. -/
def imageAttemptsFrom (env : Env) (session : Option AppContext.Session) :
    List (Option String) → Nat → Nat → List (Except JsError String × List Effect)
  | [], _, _ => []
  | slot :: rest, i, k =>
    match slot with
    | some uri =>
      if truthyStr uri then
        uploadFile env session k uri "image" (toString (i + 1))
          :: imageAttemptsFrom env session rest (i + 1) (k + 1)
      else imageAttemptsFrom env session rest (i + 1) k
    | none => imageAttemptsFrom env session rest (i + 1) k

/-- The video upload of lines 235-237, made after `k` clock readings. -/
def videoAttempt (env : Env) (session : Option AppContext.Session) (k : Nat)
    (video : Option String) : List (Except JsError String × List Effect) :=
  match video with
  | some v => if truthyStr v then [uploadFile env session k v "video" "main"] else []
  | none => []

/-- The uploads of one submission in program order: the image uploads, then the video
upload. -/
def uploadAttempts (ctx : AppCtx) (env : Env) (formData : FormData) :
    List (Except JsError String × List Effect) :=
  imageAttemptsFrom env ctx.session formData.images 0 0
    ++ videoAttempt env ctx.session (formData.images.filter truthySlot).length formData.video

/-- The error of the first upload that fails, which is the one `uploadFile` throws into
the `catch` of `handleSubmit`. -/
def firstError : List (Except JsError String × List Effect) → Option JsError
  | [] => none
  | (Except.error e, _) :: _ => some e
  | (Except.ok _, _) :: rest => firstError rest

/-- The parameter bag of lines 256-271 for given uploaded URLs. -/
def rpcParamsFor (ctx : AppCtx) (formData : FormData) (uploadedImageUrls : List String)
    (videoUrl : Option String) : RpcParams :=
  { p_name := formData.name,
    p_category := formData.category,
    p_owner_name := formData.ownerName,
    p_phone := formData.phone,
    p_description := formData.description,
    p_reference_id := formData.referenceId,
    p_address := formData.address,
    p_latitude := formData.latitude,
    p_longitude := formData.longitude,
    p_working_hours := formData.workingHours,
    p_supports_home_delivery := formData.supportsHomeDelivery == "Yes",
    p_image_urls := uploadedImageUrls,
    p_video_url := videoUrl,
    p_owner_id := sessionUserIdOr ctx.session "00000000-0000-0000-0000-000000000000" }

/-- The form passes both validation checks of `handleSubmit` (lines 152-160). -/
def passesValidation (formData : FormData) : Prop :=
  formData.name ≠ "" ∧ formData.category ≠ "" ∧ ∃ slot ∈ formData.images, slot ≠ none

end AddBusinessScreen

namespace AppContext

/-- The auth client `supabase.auth`, given by what each call settles to. The result of
`getSession` is the `session` of `{ data: { session } }`; `signOut` resolves to the
`error` of its result, which `logout` does not read. -/
structure AuthService where
  getSession : Awaited (Option Session)
  signInWithPassword : String → String → Awaited (Option JsError)
  signInWithOAuth : String → Awaited (Option JsError)
  signOut : Awaited (Option JsError)

/-- A row of `businesses` restricted to the selected columns. -/
structure BusinessRow where
  owner_id : Option String
  name : String
  category : String
  description : Option String
  address : Option String
  latitude : Option String
  longitude : Option String
  image_urls : List String
  video_url : Option String
  working_hours : Option String
  supports_home_delivery : Option Bool
deriving DecidableEq, Repr

/-- The `{ data, error }` object the `businesses` select resolves to. -/
structure BusinessesResponse where
  data : Option (List BusinessRow)
  error : Option JsError
deriving DecidableEq, Repr

/-- Observable calls of the auth functions and of `fetchBusinesses`. -/
inductive ServiceCall where
  | getSession
  | onAuthStateChange
  | signInWithPassword (email : String)
  | signInWithOAuth (provider : String)
  | signOut
  | businessesSelect
  | consoleError (label : String)
  | consoleLog (label : String)
deriving DecidableEq, Repr

/-- The object `login` and `signInWithGoogle` return: `{ success: true }` or
`{ success: false, error: message }`. -/
inductive AuthResult where
  | success
  | failure (error : String)
deriving DecidableEq, Repr

/-- The error raised by reading a property of the `null` client. -/
def nullClientError : JsError :=
  { message := "TypeError: cannot read properties of null", code := none }

/-- The function `login` (lines 99-113), against the exported client `supabase`. -/
def login (supabase : Option AuthService) (email password : String) (st : ProviderState) :
    Completion AuthResult × ProviderState × List ServiceCall :=
  let st1 : ProviderState := { st with isLoadingSession := true }
  match supabase with
  | none =>
    (Completion.returned (AuthResult.failure nullClientError.message),
      { st1 with isLoadingSession := false }, [])
  | some auth =>
    match auth.signInWithPassword email password with
    | Awaited.resolved none =>
      (Completion.returned AuthResult.success, st1, [ServiceCall.signInWithPassword email])
    | Awaited.resolved (some e) =>
      (Completion.returned (AuthResult.failure e.message),
        { st1 with isLoadingSession := false },
        [ServiceCall.signInWithPassword email, ServiceCall.consoleError "Supabase Login Error:"])
    | Awaited.rejected e =>
      (Completion.returned (AuthResult.failure e.message),
        { st1 with isLoadingSession := false }, [ServiceCall.signInWithPassword email])

/-- The function `signInWithGoogle` (lines 116-142). -/
def signInWithGoogle (supabase : Option AuthService) (st : ProviderState) :
    Completion AuthResult × ProviderState × List ServiceCall :=
  let st1 : ProviderState := { st with isLoadingSession := true }
  match supabase with
  | none =>
    (Completion.returned (AuthResult.failure nullClientError.message),
      { st1 with isLoadingSession := false }, [])
  | some auth =>
    match auth.signInWithOAuth "google" with
    | Awaited.resolved none =>
      (Completion.returned AuthResult.success, st1, [ServiceCall.signInWithOAuth "google"])
    | Awaited.resolved (some e) =>
      (Completion.returned (AuthResult.failure e.message),
        { st1 with isLoadingSession := false },
        [ServiceCall.signInWithOAuth "google",
         ServiceCall.consoleError "Supabase Google Login Error:"])
    | Awaited.rejected e =>
      (Completion.returned (AuthResult.failure e.message),
        { st1 with isLoadingSession := false }, [ServiceCall.signInWithOAuth "google"])

/-- The function `logout` (lines 145-153): the `catch` only logs. -/
def logout (supabase : Option AuthService) (st : ProviderState) :
    Completion Unit × ProviderState × List ServiceCall :=
  let st1 : ProviderState := { st with isLoadingSession := true }
  match supabase with
  | none => (Completion.returned (), st1, [ServiceCall.consoleError "Supabase Logout Error:"])
  | some auth =>
    match auth.signOut with
    | Awaited.resolved _ => (Completion.returned (), st1, [ServiceCall.signOut])
    | Awaited.rejected _ =>
      (Completion.returned (), st1,
        [ServiceCall.signOut, ServiceCall.consoleError "Supabase Logout Error:"])

/-- The synchronous body of the session effect (lines 56-94) against the exported
client: it calls `getSession()` and registers the listener, outside any `try`. It
returns the promise whose settlement `initialSessionSettles` handles. -/
def sessionListenerEffect (supabase : Option AuthService) :
    Completion (Awaited (Option Session)) × List ServiceCall :=
  match supabase with
  | none => (Completion.threw nullClientError, [])
  | some auth =>
    (Completion.returned auth.getSession,
      [ServiceCall.getSession, ServiceCall.onAuthStateChange])

/-- The `.then` and `.catch` handlers of the initial session check (lines 72-76). -/
def initialSessionSettles (r : Awaited (Option Session)) (st : ProviderState) :
    ProviderState × Option String × List Call :=
  match r with
  | Awaited.resolved authSession => handleSession authSession st
  | Awaited.rejected _ => handleSession none st

/-- The error raised by reading `data[0]` when `data` is `null` (line 256). -/
def nullDataError : JsError :=
  { message := "TypeError: cannot read properties of null", code := none }

/-- The `try` block of `fetchBusinesses` (lines 247-258); reading `data[0]` of a null
`data` throws. -/
def fetchBusinessesBody (query : Awaited BusinessesResponse) :
    Except JsError (List BusinessRow) × List ServiceCall :=
  match query with
  | Awaited.rejected e => (Except.error e, [ServiceCall.businessesSelect])
  | Awaited.resolved resp =>
    match resp.error with
    | some e =>
      (Except.error e,
        [ServiceCall.businessesSelect, ServiceCall.consoleError "Supabase fetch error:"])
    | none =>
      match resp.data with
      | none => (Except.error nullDataError, [ServiceCall.businessesSelect])
      | some rows =>
        (Except.ok rows,
          [ServiceCall.businessesSelect, ServiceCall.consoleLog "Supabase Raw Data Example:"])

/-- The function `fetchBusinesses` (lines 246-264). A `null` client is a rejection of
the query. -/
def fetchBusinesses (query : Awaited BusinessesResponse) :
    Completion (List BusinessRow) × List ServiceCall :=
  match fetchBusinessesBody query with
  | (Except.ok rows, calls) => (Completion.returned rows, calls)
  | (Except.error _, calls) =>
    (Completion.returned [], calls ++ [ServiceCall.consoleError "Error fetching businesses:"])

/-- The transitions of the session store. -/
inductive StoreStep where
  | initialCheckSettles (r : Awaited (Option Session))
  | authEvent (event : String) (authSession : Option Session)
  | fetchSettles (r : Awaited ProfileResponse)
  | login (supabase : Option AuthService) (email password : String)
  | signInWithGoogle (supabase : Option AuthService)
  | logout (supabase : Option AuthService)

/-- The provider state after one transition of the session store. -/
def storeStep (st : ProviderState) : StoreStep → ProviderState
  | StoreStep.initialCheckSettles r => (initialSessionSettles r st).1
  | StoreStep.authEvent event authSession => (onAuthStateChange event authSession st).1
  | StoreStep.fetchSettles r => (loadUserProfileDataResume r st).2.1
  | StoreStep.login supabase email password => (login supabase email password st).2.1
  | StoreStep.signInWithGoogle supabase => (signInWithGoogle supabase st).2.1
  | StoreStep.logout supabase => (logout supabase st).2.1

/-- The provider state reached from the initial one by a sequence of transitions. -/
def reach (steps : List StoreStep) : ProviderState := steps.foldl storeStep ProviderState.initial

end AppContext

namespace Database

/-- The `extra` section of the Expo configuration read by `src/database.js`. -/
structure Extra where
  supabaseUrl : JsId
  supabaseAnonKey : JsId
deriving DecidableEq, Repr

/-- Observable calls of the module initialisation. -/
inductive ModuleCall where
  | createClient (url : String) (key : String)
  | consoleWarn (message : String)
deriving DecidableEq, Repr

/-- The text of a string value, used once it is known to be truthy. -/
def textOf : JsId → String
  | JsId.str s => s
  | _ => ""

/-- The module body of `src/database.js` (lines 5-22): the exported `supabase` and the
calls made while initialising. `extra = none` is a missing `expoConfig.extra`;
`createClient` is taken to return a client. -/
def supabase (extra : Option Extra) (createClient : String → String → AppContext.AuthService) :
    Completion (Option AppContext.AuthService) × List ModuleCall :=
  let supabaseUrl : JsId := match extra with
    | some x => x.supabaseUrl
    | none => JsId.undefined
  let supabaseAnonKey : JsId := match extra with
    | some x => x.supabaseAnonKey
    | none => JsId.undefined
  if supabaseUrl.truthy && supabaseAnonKey.truthy then
    (Completion.returned (some (createClient (textOf supabaseUrl) (textOf supabaseAnonKey))),
      [ModuleCall.createClient (textOf supabaseUrl) (textOf supabaseAnonKey)])
  else
    (Completion.returned none,
      [ModuleCall.consoleWarn
        "Supabase not initialized: missing credentials. App will still load."])

end Database

namespace SalesExecutiveFormScreen

/-- The storage bucket of the screen (line 21). -/
def BUCKET_NAME : String := "application-documents"

/-- The `formData` state cell (lines 26-30); a document is `null` or a URI. -/
structure FormData where
  fullName : String
  phone : String
  email : String
  dob : String
  aadhar : String
  pan : String
  bankDetails : String
  passportPhoto : Option String
  aadharDoc : Option String
  panDoc : Option String
  bankDoc : Option String
  signature : Option String
  termsAccepted : Bool
deriving DecidableEq, Repr

/-- The state cells of the screen. -/
structure ScreenState where
  submitted : Bool
  formData : FormData
deriving DecidableEq, Repr

/-- The record inserted into `job_applications` (lines 100-116). -/
structure Submission where
  se_id : String
  full_name : String
  phone : String
  email : String
  dob : String
  aadhar : String
  pan : String
  bank_details : String
  passport_photo_url : Option String
  aadhar_doc_url : Option String
  pan_doc_url : Option String
  bank_doc_url : Option String
  signature_url : Option String
  terms_accepted : Bool
  created_at : String
deriving DecidableEq, Repr

/-- Observable calls of the screen. -/
inductive Effect where
  | alert (title : String) (message : String)
  | readFile (uri : String)
  | storageUpload (bucket : String) (path : String) (contentType : String)
  | getPublicUrl (bucket : String) (path : String)
  | insert (table : String) (submission : Submission)
  | consoleLog (label : String)
  | consoleError (label : String)
deriving DecidableEq, Repr

/-- A file read, a storage call or an insert. -/
def Effect.isExternal : Effect → Bool
  | Effect.readFile _ => true
  | Effect.storageUpload _ _ _ => true
  | Effect.getPublicUrl _ _ => true
  | Effect.insert _ _ => true
  | _ => false

/-- The inserts of a trace, in order. -/
def insertsOf : List Effect → List (String × Submission)
  | [] => []
  | Effect.insert table submission :: rest => (table, submission) :: insertsOf rest
  | _ :: rest => insertsOf rest

/-- The services the screen consults. `random` is `Math.floor(Math.random() * 1000)`.
A client that is `null` makes the storage or insert expression throw inside the `try`,
which is a rejection of that call here. -/
structure Env where
  random : Nat
  isoNow : String
  readAsStringAsync : String → Awaited String
  storageUpload : String → String → String → Awaited (Option JsError)
  getPublicUrl : String → String → String
  insert : Submission → Awaited (Option JsError)

/-- JavaScript truthiness of a document field: a non-empty string. -/
def truthyDoc : Option String → Bool
  | none => false
  | some s => truthyStr s

/-- The expression `uri.split(".").pop()` (line 67). -/
def fileExtension (uri : String) : String :=
  String.mk ((uri.toList.reverse.takeWhile (fun c => c != '.')).reverse)

/-- The content type given to the upload (line 73). -/
def contentTypeOf (fileExt : String) : String :=
  "image/" ++ (if fileExt == "jpg" then "jpeg" else fileExt)

/-- The inner function `uploadFile` (lines 60-84) run to completion. -/
def uploadFile (env : Env) (seId : String) (uri : Option String) (field : String) :
    Except JsError (Option String) × List Effect :=
  match uri with
  | none => (Except.ok none, [])
  | some u =>
    if !truthyStr u then (Except.ok none, [])
    else
      match env.readAsStringAsync u with
      | Awaited.rejected e => (Except.error e, [Effect.readFile u])
      | Awaited.resolved _ =>
        let path := seId ++ "/" ++ field ++ "." ++ fileExtension u
        let mime := contentTypeOf (fileExtension u)
        let t1 := [Effect.readFile u, Effect.storageUpload BUCKET_NAME path mime]
        match env.storageUpload BUCKET_NAME path mime with
        | Awaited.rejected e => (Except.error e, t1)
        | Awaited.resolved (some e) => (Except.error e, t1)
        | Awaited.resolved none =>
          (Except.ok (some (env.getPublicUrl BUCKET_NAME path)),
            t1 ++ [Effect.getPublicUrl BUCKET_NAME path])

/-- The `Promise.all` of lines 86-98. Every upload is started, so the calls of all of
them are in the trace, those of one upload kept together; the promise rejects with the
error of a failed upload when there is one (here the first in array order; the `catch`
of `handleSubmit` does not read it). -/
def promiseAll : List (Except JsError (Option String) × List Effect) →
    Except JsError (List (Option String)) × List Effect
  | [] => (Except.ok [], [])
  | (r, t) :: rest =>
    match r with
    | Except.error e => (Except.error e, t ++ (promiseAll rest).2)
    | Except.ok url =>
      match (promiseAll rest).1 with
      | Except.error e => (Except.error e, t ++ (promiseAll rest).2)
      | Except.ok urls => (Except.ok (url :: urls), t ++ (promiseAll rest).2)

/-- The identifier `seId` (line 58). -/
def seIdOf (env : Env) : String := "SE" ++ toString (1611 + env.random)

/-- The five uploads of lines 93-97, in the order of the array. -/
def documentUploads (env : Env) (formData : FormData) :
    List (Except JsError (Option String) × List Effect) :=
  [uploadFile env (seIdOf env) formData.passportPhoto "passport",
   uploadFile env (seIdOf env) formData.aadharDoc "aadhar",
   uploadFile env (seIdOf env) formData.panDoc "pan",
   uploadFile env (seIdOf env) formData.bankDoc "bank",
   uploadFile env (seIdOf env) formData.signature "signature"]

/-- The record `submission` (lines 100-116) for the URLs the uploads resolved to. -/
def submissionFor (env : Env) (formData : FormData) (urls : List (Option String)) :
    Submission :=
  { se_id := seIdOf env,
    full_name := formData.fullName,
    phone := formData.phone,
    email := formData.email,
    dob := formData.dob,
    aadhar := formData.aadhar,
    pan := formData.pan,
    bank_details := formData.bankDetails,
    passport_photo_url := urls.getD 0 none,
    aadhar_doc_url := urls.getD 1 none,
    pan_doc_url := urls.getD 2 none,
    bank_doc_url := urls.getD 3 none,
    signature_url := urls.getD 4 none,
    terms_accepted := formData.termsAccepted,
    created_at := env.isoNow }

/-- The `try` block of `handleSubmit` (lines 57-125). -/
def submitBody (env : Env) (formData : FormData) : Except JsError Unit × List Effect :=
  match promiseAll (documentUploads env formData) with
  | (Except.error e, t) => (Except.error e, t)
  | (Except.ok urls, t) =>
    let t1 := t ++ [Effect.insert "job_applications" (submissionFor env formData urls)]
    match env.insert (submissionFor env formData urls) with
    | Awaited.rejected e => (Except.error e, t1)
    | Awaited.resolved (some e) => (Except.error e, t1)
    | Awaited.resolved none =>
      (Except.ok (), t1 ++ [Effect.consoleLog "Sales Executive data saved with ID:"])

/-- The function `handleSubmit` of the screen (lines 46-130). -/
def handleSubmit (env : Env) (s : ScreenState) : ScreenState × List Effect :=
  if !truthyStr s.formData.fullName || !truthyStr s.formData.email
      || !truthyStr s.formData.phone || !s.formData.termsAccepted then
    (s, [Effect.alert "Error" "Please fill all required fields and accept terms"])
  else if !truthyDoc s.formData.passportPhoto || !truthyDoc s.formData.aadharDoc
      || !truthyDoc s.formData.panDoc || !truthyDoc s.formData.bankDoc
      || !truthyDoc s.formData.signature then
    (s, [Effect.alert "Error" "Please upload all required documents."])
  else
    match submitBody env s.formData with
    | (Except.ok _, t) => ({ s with submitted := true }, t)
    | (Except.error _, t) =>
      (s, t ++ [Effect.consoleError "Submission Error:",
                Effect.alert "Submission Failed 😔" "Something went wrong. Please check logs."])

/-- A document field is missing: `null` or the empty string. -/
def missing (doc : Option String) : Prop := doc = none ∨ doc = some ""

/-- The form passes both validation checks of `handleSubmit` (lines 47-55). -/
def passesValidation (formData : FormData) : Prop :=
  formData.fullName ≠ "" ∧ formData.email ≠ "" ∧ formData.phone ≠ "" ∧
  formData.termsAccepted = true ∧
  truthyDoc formData.passportPhoto = true ∧ truthyDoc formData.aadharDoc = true ∧
  truthyDoc formData.panDoc = true ∧ truthyDoc formData.bankDoc = true ∧
  truthyDoc formData.signature = true

/-- One of the five document uploads fails. -/
def someUploadFails (env : Env) (formData : FormData) : Prop :=
  ∃ task ∈ documentUploads env formData, ∃ e, task.1 = Except.error e

/-- All five document uploads succeed. -/
def allUploadsSucceed (env : Env) (formData : FormData) : Prop :=
  ∀ task ∈ documentUploads env formData, ∃ url, task.1 = Except.ok url

end SalesExecutiveFormScreen

/-! ## Sample inputs -/

namespace Samples

open AppContext

/-- A signed-in session of identity "A". -/
def sessionA : Session :=
  { user := some { id := "A", email := "a@example.com" }, accessToken := "token-A" }

/-- A profile response carrying a premium row. -/
def premiumRow : Awaited ProfileResponse :=
  Awaited.resolved { data := some { is_premium := some true }, error := none }

/-- A response carrying a server error other than the not-found code. -/
def serverError : Awaited ProfileResponse :=
  Awaited.resolved { data := none, error := some { message := "boom", code := some "500" } }

/-- The world after A signed in and signed out while the fetch for A is in flight. -/
def signedInThenOut : World :=
  run World.initial
    [Step.authEvent "SIGNED_IN" (some sessionA), Step.authEvent "SIGNED_OUT" none]

/-- A provider state in which A is signed in and cached as premium. -/
def premiumA : ProviderState :=
  { session := some sessionA, user := sessionA.user, isLoadingSession := false,
    isPremiumStatus := true }

/-- A provider state in which A is signed in and not premium. -/
def plainA : ProviderState :=
  { session := some sessionA, user := sessionA.user, isLoadingSession := false,
    isPremiumStatus := false }

/-- A data service without a row for anyone. -/
def noRowDb : String → Awaited ProfileResponse :=
  fun _ => Awaited.resolved { data := none, error := none }

/-- A data service that fails with a server error. -/
def failingDb : String → Awaited ProfileResponse := fun _ => serverError

/-- Services of `addBusiness` that all succeed. -/
def providerEnv : ProviderEnv :=
  { now := fun k => 1700000000000 + k, uuid := "uuid-1", isoNow := "2024-01-01T00:00:00.000Z",
    insert := fun _ => Awaited.resolved none }

/-- A listing with one image. -/
def listing : BusinessData :=
  { name := "Shop", category := "Food", ownerName := "Asha", phone := "123",
    description := none, referenceId := none, images := some ["file:///a.jpg"], video := none }

/-- Services of the listing screen that all succeed. Its `toLowerCase` lowers ASCII
letters, which is what the built-in does on the ASCII URIs of these samples. -/
def happyEnv : AddBusinessScreen.Env :=
  { now := fun k => 1000 + k,
    toLowerCase := fun text => String.mk (text.toList.map Char.toLower),
    fetch := fun _ => Awaited.resolved
      { ok := true, status := 200, arrayBuffer := Awaited.resolved "bytes" },
    storageUpload := fun _ _ _ => Awaited.resolved none,
    getPublicUrl := fun bucket path => "https://cdn.example/" ++ bucket ++ "/" ++ path,
    rpc := fun _ _ => Awaited.resolved none }

/-- The context seen by the screen when nobody is signed in and `isPremium()` is false. -/
def nonPremiumCtx : AddBusinessScreen.AppCtx :=
  { session := none, isPremium := false, isLoadingSession := false }

/-- The context of a signed-in premium user. -/
def premiumCtx : AddBusinessScreen.AppCtx :=
  { session := some sessionA, isPremium := true, isLoadingSession := false }

/-- A form with name, category and one image in the first slot. -/
def oneImageForm : AddBusinessScreen.FormData :=
  { AddBusinessScreen.initialFormData with
    name := "Shop", category := "Food",
    images := [some "file:///a.JPG", none, none, none, none, none, none] }

/-- The screen holding `oneImageForm`, idle. -/
def oneImageScreen : AddBusinessScreen.ScreenState :=
  { formData := oneImageForm, locating := false, isUploading := false }

/-- The screen holding a form with an image but no name. -/
def namelessScreen : AddBusinessScreen.ScreenState :=
  { formData := { oneImageForm with name := "" }, locating := false, isUploading := false }

/-- A form with images in the second and fourth slot and a video. -/
def twoImageForm : AddBusinessScreen.FormData :=
  { AddBusinessScreen.initialFormData with
    name := "Shop", category := "Food",
    images := [none, some "file:///b.png", none, some "file:///d.jpg", none, none, none],
    video := some "file:///clip.mp4" }

/-- The screen holding `twoImageForm`, idle. -/
def twoImageScreen : AddBusinessScreen.ScreenState :=
  { formData := twoImageForm, locating := false, isUploading := false }

/-- A form whose only non-null image slot holds the empty string. -/
def emptyUriForm : AddBusinessScreen.FormData :=
  { AddBusinessScreen.initialFormData with
    name := "Shop", category := "Food",
    images := [some "", none, none, none, none, none, none] }

/-- The screen holding `emptyUriForm`, idle. -/
def emptyUriScreen : AddBusinessScreen.ScreenState :=
  { formData := emptyUriForm, locating := false, isUploading := false }

/-- A form with the empty string in the first slot and an image in the second. -/
def emptyThenImageForm : AddBusinessScreen.FormData :=
  { AddBusinessScreen.initialFormData with
    name := "Shop", category := "Food",
    images := [some "", some "file:///b.png", none, none, none, none, none] }

/-- The screen holding `emptyThenImageForm`, idle. -/
def emptyThenImageScreen : AddBusinessScreen.ScreenState :=
  { formData := emptyThenImageForm, locating := false, isUploading := false }

/-- The error returned by the storage service in `secondUploadFailsEnv`. -/
def quotaError : JsError := { message := "storage quota exceeded", code := none }

/-- Services of the listing screen whose storage returns an error for one path only,
the path of the second image of `twoImageForm` when A is signed in. -/
def secondUploadFailsEnv : AddBusinessScreen.Env :=
  { happyEnv with
    storageUpload := fun _ path _ =>
      if path == "A/1001_image_4.jpg" then Awaited.resolved (some quotaError)
      else Awaited.resolved none }

/-- Services of the listing screen whose every fetch answers 404. -/
def fetch404Env : AddBusinessScreen.Env :=
  { happyEnv with
    fetch := fun _ => Awaited.resolved
      { ok := false, status := 404, arrayBuffer := Awaited.resolved "" } }

/-- Services of the listing screen whose RPC returns an error. -/
def rpcErrorEnv : AddBusinessScreen.Env :=
  { happyEnv with
    rpc := fun _ _ => Awaited.resolved (some { message := "insert failed", code := none }) }

/-- Services of the job-application screen that all succeed. -/
def salesEnv : SalesExecutiveFormScreen.Env :=
  { random := 42, isoNow := "2024-01-01T00:00:00.000Z",
    readAsStringAsync := fun _ => Awaited.resolved "QUJD",
    storageUpload := fun _ _ _ => Awaited.resolved none,
    getPublicUrl := fun bucket path => "https://cdn.example/" ++ bucket ++ "/" ++ path,
    insert := fun _ => Awaited.resolved none }

/-- Services of the job-application screen that cannot read the PAN document. -/
def panUnreadableEnv : SalesExecutiveFormScreen.Env :=
  { salesEnv with
    readAsStringAsync := fun uri =>
      if uri == "file:///pan.jpg" then
        Awaited.rejected { message := "file not found", code := none }
      else Awaited.resolved "QUJD" }

/-- A job application with every field and document filled. -/
def fullApplication : SalesExecutiveFormScreen.FormData :=
  { fullName := "Asha Rao", phone := "9999999999", email := "asha@example.com",
    dob := "01/01/1990", aadhar := "123412341234", pan := "ABCDE1234F",
    bankDetails := "Bank 001", passportPhoto := some "file:///photo.jpg",
    aadharDoc := some "file:///aadhar.png", panDoc := some "file:///pan.jpg",
    bankDoc := some "file:///bank.jpg", signature := some "file:///sign.png",
    termsAccepted := true }

/-- The job-application screen holding `fullApplication`, not yet submitted. -/
def fullApplicationScreen : SalesExecutiveFormScreen.ScreenState :=
  { submitted := false, formData := fullApplication }

/-- The job-application screen with the signature missing. -/
def unsignedScreen : SalesExecutiveFormScreen.ScreenState :=
  { submitted := false, formData := { fullApplication with signature := none } }

/-- The job-application screen with date of birth, Aadhar number, PAN number and
banking details left empty. -/
def starredEmptyScreen : SalesExecutiveFormScreen.ScreenState :=
  { submitted := false,
    formData := { fullApplication with dob := "", aadhar := "", pan := "", bankDetails := "" } }

/-- A network failure as reported by the auth client. -/
def networkError : JsError := { message := "Network request failed", code := none }

/-- An auth client whose every call fails: the calls reject, the OAuth call returns an
error. -/
def downAuth : AuthService :=
  { getSession := Awaited.rejected networkError,
    signInWithPassword := fun _ _ => Awaited.rejected networkError,
    signInWithOAuth := fun _ => Awaited.resolved (some networkError),
    signOut := Awaited.rejected networkError }

/-- An auth client whose sign-out resolves with an error in its result. -/
def signOutErrorAuth : AuthService :=
  { downAuth with signOut := Awaited.resolved (some networkError) }

/-- An auth client whose every call succeeds, with no stored session. -/
def workingAuth : AuthService :=
  { getSession := Awaited.resolved none,
    signInWithPassword := fun _ _ => Awaited.resolved none,
    signInWithOAuth := fun _ => Awaited.resolved none,
    signOut := Awaited.resolved none }

/-- A `createClient` that yields the working client. -/
def createClient : String → String → AuthService := fun _ _ => workingAuth

/-- A configuration with the URL present and the anon key missing. -/
def keylessExtra : Database.Extra :=
  { supabaseUrl := JsId.str "https://project.supabase.co", supabaseAnonKey := JsId.undefined }

/-- A configuration with both credentials. -/
def completeExtra : Database.Extra :=
  { supabaseUrl := JsId.str "https://project.supabase.co", supabaseAnonKey := JsId.str "anon" }

end Samples

/-! ## Entitlement cache and session store -/

namespace AppContext

theorem loadUserProfileDataResume_returns (r : Awaited ProfileResponse) (st : ProviderState) :
    (loadUserProfileDataResume r st).1 = Completion.returned () := by
  unfold loadUserProfileDataResume
  cases r with
  | resolved resp => by_cases h : isGenuineError resp.error = true <;> simp [h]
  | rejected e => rfl

theorem loadUserProfileDataResume_frame (r : Awaited ProfileResponse) (st : ProviderState) :
    (loadUserProfileDataResume r st).2.1.session = st.session ∧
    (loadUserProfileDataResume r st).2.1.user = st.user ∧
    (loadUserProfileDataResume r st).2.1.isLoadingSession = st.isLoadingSession := by
  unfold loadUserProfileDataResume
  cases r with
  | resolved resp => by_cases h : isGenuineError resp.error = true <;> simp [h]
  | rejected e => simp

theorem premiumOf_eq_true_iff (profile : Option ProfileRow) :
    premiumOf profile = true ↔ ∃ row, profile = some row ∧ row.is_premium = some true := by
  cases profile with
  | none => simp [premiumOf]
  | some row =>
    rcases row with ⟨p⟩
    cases p with
    | none => simp [premiumOf]
    | some b => simp [premiumOf]

theorem loadUserProfileDataResume_flag (r : Awaited ProfileResponse) (st : ProviderState) :
    (loadUserProfileDataResume r st).2.1.isPremiumStatus = true ↔
      ∃ resp row, r = Awaited.resolved resp ∧ isGenuineError resp.error = false ∧
        resp.data = some row ∧ row.is_premium = some true := by
  unfold loadUserProfileDataResume
  cases r with
  | resolved resp =>
    by_cases h : isGenuineError resp.error = true
    · simp [h]
    · have h2 : isGenuineError resp.error = false := by simpa using h
      simp [h2, premiumOf_eq_true_iff]
  | rejected e => simp

theorem loadUserProfileData_present (db : String → Awaited ProfileResponse) (s : String)
    (st : ProviderState) (hs : s ≠ "") :
    loadUserProfileData db (JsId.str s) st =
      ((loadUserProfileDataResume (db s) st).1, (loadUserProfileDataResume (db s) st).2.1,
        Call.profilesQuery s :: (loadUserProfileDataResume (db s) st).2.2) := by
  have ht : truthyStr s = true := by simp [truthyStr, hs]
  simp [loadUserProfileData, loadUserProfileDataStart, ht]

/-- C1 (as amended). In every reachable world, a profile fetch that settles, whoever the
current user is at that moment, leaves session, user and loading flag as they were and
sets the premium flag to the value of its own result: true exactly when the query
resolved without a genuine error with a row whose `is_premium` is true. No identity
is compared. -/
theorem fetch_result_applied_whatever_the_user (steps : List Step) (k : Nat)
    (r : Awaited ProfileResponse) (hk : k < (run World.initial steps).pending.length) :
    (step (run World.initial steps) (Step.fetchSettles k r)).st.session
        = (run World.initial steps).st.session ∧
    (step (run World.initial steps) (Step.fetchSettles k r)).st.user
        = (run World.initial steps).st.user ∧
    (step (run World.initial steps) (Step.fetchSettles k r)).st.isLoadingSession
        = (run World.initial steps).st.isLoadingSession ∧
    (isPremium (step (run World.initial steps) (Step.fetchSettles k r)).st = true ↔
      ∃ resp row, r = Awaited.resolved resp ∧ isGenuineError resp.error = false ∧
        resp.data = some row ∧ row.is_premium = some true) := by
  have hf := loadUserProfileDataResume_frame r (run World.initial steps).st
  have hp := loadUserProfileDataResume_flag r (run World.initial steps).st
  simp only [step, hk, if_true, isPremium]
  exact ⟨hf.1, hf.2.1, hf.2.2, hp⟩

/-- Witness for C1 (as amended): A signs in, signs out, then the fetch for A settles. -/
theorem fetch_result_applied_whatever_the_user_witness :
    0 < (run World.initial
          [Step.authEvent "SIGNED_IN" (some Samples.sessionA),
           Step.authEvent "SIGNED_OUT" none]).pending.length ∧
    ((step (run World.initial
          [Step.authEvent "SIGNED_IN" (some Samples.sessionA),
           Step.authEvent "SIGNED_OUT" none])
        (Step.fetchSettles 0 Samples.premiumRow)).st.session
        = (run World.initial
          [Step.authEvent "SIGNED_IN" (some Samples.sessionA),
           Step.authEvent "SIGNED_OUT" none]).st.session ∧
    (step (run World.initial
          [Step.authEvent "SIGNED_IN" (some Samples.sessionA),
           Step.authEvent "SIGNED_OUT" none])
        (Step.fetchSettles 0 Samples.premiumRow)).st.user
        = (run World.initial
          [Step.authEvent "SIGNED_IN" (some Samples.sessionA),
           Step.authEvent "SIGNED_OUT" none]).st.user ∧
    (step (run World.initial
          [Step.authEvent "SIGNED_IN" (some Samples.sessionA),
           Step.authEvent "SIGNED_OUT" none])
        (Step.fetchSettles 0 Samples.premiumRow)).st.isLoadingSession
        = (run World.initial
          [Step.authEvent "SIGNED_IN" (some Samples.sessionA),
           Step.authEvent "SIGNED_OUT" none]).st.isLoadingSession ∧
    (isPremium (step (run World.initial
          [Step.authEvent "SIGNED_IN" (some Samples.sessionA),
           Step.authEvent "SIGNED_OUT" none])
        (Step.fetchSettles 0 Samples.premiumRow)).st = true ↔
      ∃ resp row, Samples.premiumRow = Awaited.resolved resp ∧
        isGenuineError resp.error = false ∧
        resp.data = some row ∧ row.is_premium = some true)) :=
  ⟨by decide,
   fetch_result_applied_whatever_the_user
     [Step.authEvent "SIGNED_IN" (some Samples.sessionA), Step.authEvent "SIGNED_OUT" none]
     0 Samples.premiumRow (by decide)⟩

/-- Counterexample to C1 as stated: A signs in (fetch in flight), signs out, and the
fetch issued for A then resolves with `is_premium = true`. No user is current, the flag
was false, and it becomes true. -/
theorem stale_fetch_after_sign_out_sets_premium :
    Samples.signedInThenOut.pending = ["A"] ∧
    currentIdentity Samples.signedInThenOut.st = none ∧
    isPremium Samples.signedInThenOut.st = false ∧
    isPremium (step Samples.signedInThenOut
      (Step.fetchSettles 0 Samples.premiumRow)).st = true := by
  decide

/-- C3. Whatever the listing data, when the premium flag is false `addBusiness` returns
`{ success: false, error }` with the error "Only premium members can add a business.",
it does not throw, and its calls contain neither `uploadMedia` nor the insert. -/
theorem addBusiness_rejects_non_premium (env : ProviderEnv) (st : ProviderState)
    (businessData : BusinessData) (h : isPremium st = false) :
    (addBusiness env st businessData).1 = Completion.returned (AddResult.failure
        { message := "Only premium members can add a business.", code := none }) ∧
    (∀ c ∈ (addBusiness env st businessData).2, Call.isUploadOrInsert c = false) ∧
    (∀ uri path, Call.uploadMedia uri path ∉ (addBusiness env st businessData).2) ∧
    (∀ payload, Call.businessesInsert payload ∉ (addBusiness env st businessData).2) := by
  have hp : st.isPremiumStatus = false := h
  have hb : addBusinessBody env st businessData = (Except.error premiumRequired, []) := by
    simp [addBusinessBody, hp]
  simp [addBusiness, hb, premiumRequired, Call.isUploadOrInsert]

/-- Witness for C3: a signed-in, non-premium user submits a one-image listing. -/
theorem addBusiness_rejects_non_premium_witness :
    isPremium Samples.plainA = false ∧
    ((addBusiness Samples.providerEnv Samples.plainA Samples.listing).1 =
      Completion.returned (AddResult.failure
        { message := "Only premium members can add a business.", code := none }) ∧
    (∀ c ∈ (addBusiness Samples.providerEnv Samples.plainA Samples.listing).2,
      Call.isUploadOrInsert c = false) ∧
    (∀ uri path, Call.uploadMedia uri path ∉
      (addBusiness Samples.providerEnv Samples.plainA Samples.listing).2) ∧
    (∀ payload, Call.businessesInsert payload ∉
      (addBusiness Samples.providerEnv Samples.plainA Samples.listing).2)) :=
  ⟨by decide,
   addBusiness_rejects_non_premium Samples.providerEnv Samples.plainA Samples.listing
     (by decide)⟩

/-- C4. Whatever the prior state, once the auth-event handler has processed an event
whose session is absent, `isPremium()` is false, user is null and session is null; this
holds for `handleSession(null)` itself and for the listener callback with any event
name, neither of which starts a profile fetch. -/
theorem absent_session_clears_entitlement (st : ProviderState) (event : String) :
    isPremium (handleSession none st).1 = false ∧
    (handleSession none st).1.user = none ∧
    (handleSession none st).1.session = none ∧
    (handleSession none st).2.1 = none ∧
    isPremium (onAuthStateChange event none st).1 = false ∧
    (onAuthStateChange event none st).1.user = none ∧
    (onAuthStateChange event none st).1.session = none ∧
    (onAuthStateChange event none st).2.1 = none := by
  simp [onAuthStateChange, handleSession, isPremium]

/-- C5. For an absent `userId` (null, undefined or the empty string) and any prior
premium flag, `loadUserProfileData` returns with the flag false and with no call at
all, so in particular no query on `profiles`. -/
theorem loadUserProfileData_absent_id (db : String → Awaited ProfileResponse)
    (userId : JsId) (st : ProviderState)
    (h : userId = JsId.null ∨ userId = JsId.undefined ∨ userId = JsId.str "") :
    (loadUserProfileData db userId st).1 = Completion.returned () ∧
    isPremium (loadUserProfileData db userId st).2.1 = false ∧
    (loadUserProfileData db userId st).2.2 = [] ∧
    (∀ c ∈ (loadUserProfileData db userId st).2.2, Call.isDataService c = false) := by
  rcases h with h | h | h <;> subst h <;>
    simp [loadUserProfileData, loadUserProfileDataStart, isPremium, truthyStr]

/-- Witness for C5: `userId = null` while the cached flag is true. -/
theorem loadUserProfileData_absent_id_witness :
    (JsId.null = JsId.null ∨ JsId.null = JsId.undefined ∨ JsId.null = JsId.str "") ∧
    ((loadUserProfileData Samples.noRowDb JsId.null Samples.premiumA).1
        = Completion.returned () ∧
    isPremium (loadUserProfileData Samples.noRowDb JsId.null Samples.premiumA).2.1 = false ∧
    (loadUserProfileData Samples.noRowDb JsId.null Samples.premiumA).2.2 = [] ∧
    (∀ c ∈ (loadUserProfileData Samples.noRowDb JsId.null Samples.premiumA).2.2,
      Call.isDataService c = false)) :=
  ⟨Or.inl rfl,
   loadUserProfileData_absent_id Samples.noRowDb JsId.null Samples.premiumA (Or.inl rfl)⟩

theorem isGenuineError_false_of_tolerated (error : Option JsError)
    (h : error = none ∨ ∃ e, error = some e ∧ e.code = some "PGRST116") :
    isGenuineError error = false := by
  rcases h with h | ⟨e, h, hc⟩
  · subst h; rfl
  · subst h; simp [isGenuineError, hc]

theorem isGenuineError_true_of_other (error : Option JsError) (e : JsError)
    (h : error = some e) (hc : e.code ≠ some "PGRST116") : isGenuineError error = true := by
  subst h; simp [isGenuineError, hc]

/-- C6. For a present `userId`, when the profile query resolves with no error or with
the not-found code "PGRST116", `loadUserProfileData` returns without raising and the
premium flag is true exactly when a row was returned whose `is_premium` is true; a
"no row" result (data null) leaves `isPremium()` false. -/
theorem loadUserProfileData_tolerates_no_row (db : String → Awaited ProfileResponse)
    (s : String) (st : ProviderState) (resp : ProfileResponse) (hs : s ≠ "")
    (hdb : db s = Awaited.resolved resp)
    (herr : resp.error = none ∨ ∃ e, resp.error = some e ∧ e.code = some "PGRST116") :
    (loadUserProfileData db (JsId.str s) st).1 = Completion.returned () ∧
    (isPremium (loadUserProfileData db (JsId.str s) st).2.1 = true ↔
      ∃ row, resp.data = some row ∧ row.is_premium = some true) ∧
    (resp.data = none → isPremium (loadUserProfileData db (JsId.str s) st).2.1 = false) := by
  have hg := isGenuineError_false_of_tolerated resp.error herr
  rw [loadUserProfileData_present db s st hs, hdb]
  simp only [loadUserProfileDataResume, hg, isPremium]
  refine ⟨by simp, by simpa using premiumOf_eq_true_iff resp.data, ?_⟩
  intro hd
  simp [hd, premiumOf]

/-- Witness for C6: A is cached as premium and the query finds no row. -/
theorem loadUserProfileData_tolerates_no_row_witness :
    ("A" ≠ "" ∧ Samples.noRowDb "A" = Awaited.resolved { data := none, error := none } ∧
      ((none : Option JsError) = none ∨
        ∃ e, (none : Option JsError) = some e ∧ e.code = some "PGRST116")) ∧
    ((loadUserProfileData Samples.noRowDb (JsId.str "A") Samples.premiumA).1
        = Completion.returned () ∧
    (isPremium (loadUserProfileData Samples.noRowDb (JsId.str "A") Samples.premiumA).2.1 = true ↔
      ∃ row, (none : Option ProfileRow) = some row ∧ row.is_premium = some true) ∧
    ((none : Option ProfileRow) = none →
      isPremium (loadUserProfileData Samples.noRowDb (JsId.str "A") Samples.premiumA).2.1
        = false)) :=
  ⟨⟨by decide, rfl, Or.inl rfl⟩,
   loadUserProfileData_tolerates_no_row Samples.noRowDb "A" Samples.premiumA
     { data := none, error := none } (by decide) rfl (Or.inl rfl)⟩

/-- C7. Fail closed: for a present `userId` and any prior premium flag, if the profile
query rejects (throws), or resolves with an error whose code is not "PGRST116", then
`loadUserProfileData` returns without propagating the failure and `isPremium()` is
false afterwards. -/
theorem loadUserProfileData_fails_closed (db : String → Awaited ProfileResponse)
    (s : String) (st : ProviderState) (hs : s ≠ "")
    (hfail : (∃ e, db s = Awaited.rejected e) ∨
      (∃ resp e, db s = Awaited.resolved resp ∧ resp.error = some e ∧
        e.code ≠ some "PGRST116")) :
    (loadUserProfileData db (JsId.str s) st).1 = Completion.returned () ∧
    isPremium (loadUserProfileData db (JsId.str s) st).2.1 = false := by
  rw [loadUserProfileData_present db s st hs]
  rcases hfail with ⟨e, he⟩ | ⟨resp, e, hr, herr, hc⟩
  · rw [he]; simp [loadUserProfileDataResume, isPremium]
  · have hg := isGenuineError_true_of_other resp.error e herr hc
    rw [hr]; simp [loadUserProfileDataResume, hg, isPremium]

/-- Witness for C7: A is cached as premium and the query fails with a server error. -/
theorem loadUserProfileData_fails_closed_witness :
    ("A" ≠ "" ∧
      ((∃ e, Samples.failingDb "A" = Awaited.rejected e) ∨
       (∃ resp e, Samples.failingDb "A" = Awaited.resolved resp ∧ resp.error = some e ∧
          e.code ≠ some "PGRST116"))) ∧
    ((loadUserProfileData Samples.failingDb (JsId.str "A") Samples.premiumA).1
        = Completion.returned () ∧
    isPremium (loadUserProfileData Samples.failingDb (JsId.str "A") Samples.premiumA).2.1
        = false) :=
  ⟨⟨by decide, Or.inr ⟨_, _, rfl, rfl, by decide⟩⟩,
   loadUserProfileData_fails_closed Samples.failingDb "A" Samples.premiumA (by decide)
     (Or.inr ⟨_, _, rfl, rfl, by decide⟩)⟩

/-- Counterexample to C8 as stated: A is the current user and cached as premium; a
later fetch for A fails with a server error; the flag does not stay true. -/
theorem genuine_error_drops_cached_premium :
    currentIdentity Samples.premiumA = some "A" ∧
    isPremium Samples.premiumA = true ∧
    isPremium (loadUserProfileData Samples.failingDb (JsId.str "A") Samples.premiumA).2.1
      = false := by
  decide

/-- C8 (as amended). When the premium flag is true for the current user and a later
profile fetch for that same user resolves with a genuine (non-not-found) error,
`loadUserProfileData` logs the error and sets the flag to false; user and session are
left as they were. -/
theorem same_identity_error_resets_premium (db : String → Awaited ProfileResponse)
    (s : String) (st : ProviderState) (resp : ProfileResponse) (e : JsError)
    (hs : s ≠ "") (hcur : currentIdentity st = some s) (hprem : isPremium st = true)
    (hdb : db s = Awaited.resolved resp) (herr : resp.error = some e)
    (hc : e.code ≠ some "PGRST116") :
    isPremium (loadUserProfileData db (JsId.str s) st).2.1 = false ∧
    isPremium (loadUserProfileData db (JsId.str s) st).2.1 ≠ isPremium st ∧
    currentIdentity (loadUserProfileData db (JsId.str s) st).2.1 = some s ∧
    (loadUserProfileData db (JsId.str s) st).2.1.session = st.session ∧
    (loadUserProfileData db (JsId.str s) st).2.2 =
      [Call.profilesQuery s, Call.consoleError "Error loading user profile:"] := by
  have hg := isGenuineError_true_of_other resp.error e herr hc
  have hp : st.isPremiumStatus = true := hprem
  have hu : Option.map (fun u => u.id) st.user = some s := hcur
  rw [loadUserProfileData_present db s st hs, hdb]
  simp [loadUserProfileDataResume, hg, isPremium, currentIdentity, hp, hu]

/-- Witness for C8 (as amended): A, cached as premium, meets a server error. -/
theorem same_identity_error_resets_premium_witness :
    ("A" ≠ "" ∧ currentIdentity Samples.premiumA = some "A" ∧
      isPremium Samples.premiumA = true) ∧
    (isPremium (loadUserProfileData Samples.failingDb (JsId.str "A") Samples.premiumA).2.1
        = false ∧
    isPremium (loadUserProfileData Samples.failingDb (JsId.str "A") Samples.premiumA).2.1
      ≠ isPremium Samples.premiumA ∧
    currentIdentity (loadUserProfileData Samples.failingDb (JsId.str "A") Samples.premiumA).2.1
      = some "A" ∧
    (loadUserProfileData Samples.failingDb (JsId.str "A") Samples.premiumA).2.1.session
      = Samples.premiumA.session ∧
    (loadUserProfileData Samples.failingDb (JsId.str "A") Samples.premiumA).2.2 =
      [Call.profilesQuery "A", Call.consoleError "Error loading user profile:"]) :=
  ⟨⟨by decide, by decide, by decide⟩,
   same_identity_error_resets_premium Samples.failingDb "A" Samples.premiumA
     { data := none, error := some { message := "boom", code := some "500" } }
     { message := "boom", code := some "500" }
     (by decide) (by decide) (by decide) rfl rfl (by decide)⟩

end AppContext

/-! ## Business-listing screen -/

namespace AddBusinessScreen

theorem rpcCallsOf_append (a b : List Effect) :
    rpcCallsOf (a ++ b) = rpcCallsOf a ++ rpcCallsOf b := by
  induction a with
  | nil => rfl
  | cons e rest ih => cases e <;> simp [rpcCallsOf, ih]

theorem uploadCount_append (a b : List Effect) :
    uploadCount (a ++ b) = uploadCount a + uploadCount b := by
  simp [uploadCount]

theorem Env.allSucceed.uploads {env : Env} (h : env.allSucceed) : env.uploadsSucceed :=
  ⟨h.1, h.2.1⟩

theorem uploadFile_allSucceed_eq (env : Env) (h : env.uploadsSucceed)
    (session : Option AppContext.Session) (k : Nat) (uri type index : String) :
    uploadFile env session k uri type index =
      (Except.ok (env.getPublicUrl BUSINESS_BUCKET (uploadPath env session k uri type index)),
        [Effect.fetch uri,
         Effect.storageUpload BUSINESS_BUCKET (uploadPath env session k uri type index)
           (uploadMime env uri type),
         Effect.getPublicUrl BUSINESS_BUCKET (uploadPath env session k uri type index)]) := by
  obtain ⟨hf, hu⟩ := h
  obtain ⟨status, buf, hfu⟩ := hf uri
  simp [uploadFile, uriToBuffer, hfu, hu]

theorem uploadFile_allSucceed (env : Env) (h : env.uploadsSucceed)
    (session : Option AppContext.Session) (k : Nat) (uri type index : String) :
    ∃ url t, uploadFile env session k uri type index = (Except.ok url, t) ∧
      uploadCount t = 1 ∧ rpcCallsOf t = [] := by
  refine ⟨_, _, uploadFile_allSucceed_eq env h session k uri type index, ?_, ?_⟩
  · simp [uploadCount, Effect.isUpload]
  · simp [rpcCallsOf]

theorem uploadImages_allSucceed (env : Env) (h : env.uploadsSucceed)
    (session : Option AppContext.Session) :
    ∀ (slots : List (Option String)) (i k : Nat),
      ∃ urls t, uploadImages env session slots i k
          = (Except.ok (urls, k + (slots.filter truthySlot).length), t) ∧
        urls.length = (slots.filter truthySlot).length ∧
        uploadCount t = (slots.filter truthySlot).length ∧ rpcCallsOf t = [] := by
  intro slots
  induction slots with
  | nil => intro i k; exact ⟨[], [], rfl, rfl, rfl, rfl⟩
  | cons slot rest ih =>
    intro i k
    cases slot with
    | none =>
      obtain ⟨urls, t, he, hl, hc, hr⟩ := ih (i + 1) k
      exact ⟨urls, t, by simpa [uploadImages, truthySlot] using he,
        by simpa [truthySlot] using hl, by simpa [truthySlot] using hc, hr⟩
    | some uri =>
      by_cases hu : truthyStr uri = true
      · obtain ⟨url, t1, he1, hc1, hr1⟩ :=
          uploadFile_allSucceed env h session k uri "image" (toString (i + 1))
        obtain ⟨urls, t, he, hl, hc, hr⟩ := ih (i + 1) (k + 1)
        refine ⟨url :: urls, t1 ++ t, ?_, ?_, ?_, ?_⟩
        · simp [uploadImages, hu, he1, he, truthySlot]; omega
        · simp [truthySlot, hu, hl]
        · simp [uploadCount_append, truthySlot, hu, hc1, hc]; omega
        · simp [rpcCallsOf_append, hr1, hr]
      · have hu2 : truthyStr uri = false := by simpa using hu
        obtain ⟨urls, t, he, hl, hc, hr⟩ := ih (i + 1) k
        exact ⟨urls, t, by simpa [uploadImages, truthySlot, hu2] using he,
          by simpa [truthySlot, hu2] using hl, by simpa [truthySlot, hu2] using hc, hr⟩

theorem any_selected_of_filter_length (slots : List (Option String))
    (h : (slots.filter (fun slot => slot != none)).length = 1) :
    slots.any (fun uri => uri != none) = true := by
  have hne : slots.filter (fun slot => slot != none) ≠ [] := by
    intro h0
    rw [h0] at h
    simp at h
  obtain ⟨x, hx⟩ := List.exists_mem_of_ne_nil _ hne
  rw [List.mem_filter] at hx
  rw [List.any_eq_true]
  exact ⟨x, hx.1, hx.2⟩

theorem filter_truthy_eq_filter_selected (slots : List (Option String))
    (huri : ∀ slot ∈ slots, slot ≠ some "") :
    slots.filter truthySlot = slots.filter (fun slot => slot != none) := by
  apply List.filter_congr
  intro slot hmem
  cases slot with
  | none => rfl
  | some uri =>
    have h0 : uri ≠ "" := fun h => huri (some uri) hmem (by rw [h])
    have h1 : (uri != "") = true := by simpa using h0
    have h2 : (some uri != none) = true := by simp
    simp only [truthySlot, truthyStr, h1, h2]

/-- Evaluation for C2: nobody is signed in and `isPremium()` is false, the form holds a
name, a category and one image, and every service call succeeds. `handleSubmit` makes
one storage upload and one `insert_business_data` call, reports success and resets the
form: the submission is not rejected. -/
theorem handleSubmit_ignores_entitlement :
    Samples.nonPremiumCtx.isPremium = false ∧
    uploadCount (handleSubmit Samples.nonPremiumCtx Samples.happyEnv Samples.oneImageScreen).2
      = 1 ∧
    (rpcCallsOf
        (handleSubmit Samples.nonPremiumCtx Samples.happyEnv Samples.oneImageScreen).2).map
      (fun c => c.1) = ["insert_business_data"] ∧
    (handleSubmit Samples.nonPremiumCtx Samples.happyEnv Samples.oneImageScreen).2.getLast?
      = some (Effect.alert "Success" "Business Published successfully!") ∧
    (handleSubmit Samples.nonPremiumCtx Samples.happyEnv Samples.oneImageScreen).1.formData
      = initialFormData := by
  decide

/-- The result of `handleSubmit` is the same whatever `isPremium()` returns. -/
theorem handleSubmit_independent_of_isPremium (ctx : AppCtx) (env : Env) (s : ScreenState)
    (b : Bool) : handleSubmit { ctx with isPremium := b } env s = handleSubmit ctx env s := by
  rfl

/-- C9. When name is empty, or category is empty, or every image slot is null,
`handleSubmit` returns after a single alert: its trace holds no fetch, storage call or
RPC, and the screen state (so `formData` and `isUploading`) is unchanged. -/
theorem handleSubmit_validation_blocks (ctx : AppCtx) (env : Env) (s : ScreenState)
    (h : s.formData.name = "" ∨ s.formData.category = "" ∨
      ∀ slot ∈ s.formData.images, slot = none) :
    (handleSubmit ctx env s).1 = s ∧
    (∃ title message, (handleSubmit ctx env s).2 = [Effect.alert title message]) ∧
    (∀ e ∈ (handleSubmit ctx env s).2, Effect.isExternal e = false) ∧
    uploadCount (handleSubmit ctx env s).2 = 0 ∧
    rpcCallsOf (handleSubmit ctx env s).2 = [] := by
  by_cases hreq : (!truthyStr s.formData.name || !truthyStr s.formData.category) = true
  · simp [handleSubmit, hreq, Effect.isExternal, uploadCount, Effect.isUpload, rpcCallsOf]
  · have hall : ∀ slot ∈ s.formData.images, slot = none := by
      rcases h with h | h | h
      · exact absurd (by simp [truthyStr, h]) hreq
      · exact absurd (by simp [truthyStr, h]) hreq
      · exact h
    have hany : s.formData.images.any (fun uri => uri != none) = false := by
      rw [List.any_eq_false]
      intro x hx
      simp [hall x hx]
    simp [handleSubmit, hreq, hany, Effect.isExternal, uploadCount, Effect.isUpload,
      rpcCallsOf]

/-- Witness for C9: a form with an image but an empty name. -/
theorem handleSubmit_validation_blocks_witness :
    (Samples.namelessScreen.formData.name = "" ∨
      Samples.namelessScreen.formData.category = "" ∨
      ∀ slot ∈ Samples.namelessScreen.formData.images, slot = none) ∧
    ((handleSubmit Samples.premiumCtx Samples.happyEnv Samples.namelessScreen).1
        = Samples.namelessScreen ∧
    (∃ title message,
      (handleSubmit Samples.premiumCtx Samples.happyEnv Samples.namelessScreen).2
        = [Effect.alert title message]) ∧
    (∀ e ∈ (handleSubmit Samples.premiumCtx Samples.happyEnv Samples.namelessScreen).2,
      Effect.isExternal e = false) ∧
    uploadCount (handleSubmit Samples.premiumCtx Samples.happyEnv Samples.namelessScreen).2
      = 0 ∧
    rpcCallsOf (handleSubmit Samples.premiumCtx Samples.happyEnv Samples.namelessScreen).2
      = []) :=
  ⟨Or.inl rfl,
   handleSubmit_validation_blocks Samples.premiumCtx Samples.happyEnv Samples.namelessScreen
     (Or.inl rfl)⟩

/-- C10 (as amended). For a form with non-empty name and category, exactly one non-null
image slot, no slot holding the empty string, and no video, when every external call
succeeds `handleSubmit` makes exactly one storage upload, calls the
`insert_business_data` RPC exactly once with one image URL and a null video URL, and
leaves `formData` equal to the initial empty form, with `isUploading` false. -/
theorem handleSubmit_single_image_happy_path (ctx : AppCtx) (env : Env) (s : ScreenState)
    (hname : s.formData.name ≠ "") (hcat : s.formData.category ≠ "")
    (hone : (s.formData.images.filter (fun slot => slot != none)).length = 1)
    (huri : ∀ slot ∈ s.formData.images, slot ≠ some "")
    (hvideo : s.formData.video = none) (henv : env.allSucceed) :
    uploadCount (handleSubmit ctx env s).2 = 1 ∧
    (∃ params, rpcCallsOf (handleSubmit ctx env s).2 = [("insert_business_data", params)] ∧
      params.p_image_urls.length = 1 ∧ params.p_video_url = none) ∧
    (handleSubmit ctx env s).1.formData =
      { name := "", category := "", ownerName := "", phone := "", description := "",
        referenceId := "", address := "", latitude := "", longitude := "", location := none,
        images := [none, none, none, none, none, none, none], video := none,
        workingHours := "", supportsHomeDelivery := "No" } ∧
    (handleSubmit ctx env s).1.isUploading = false := by
  have hsel := filter_truthy_eq_filter_selected s.formData.images huri
  obtain ⟨urls, t, he, hl, hc, hr⟩ :=
    uploadImages_allSucceed env henv.uploads ctx.session s.formData.images 0 0
  rw [hsel, hone] at he hl hc
  have hany := any_selected_of_filter_length s.formData.images hone
  have hn : truthyStr s.formData.name = true := by simp [truthyStr, hname]
  have hcg : truthyStr s.formData.category = true := by simp [truthyStr, hcat]
  have hrpc := henv.2.2
  have hany2 : (s.formData.images.any (fun uri => uri != none)) = true := hany
  simp only [handleSubmit, submitBody, hn, hcg, hany2, he, hvideo, hrpc]
  have hc2 : (t.filter Effect.isUpload).length = 1 := hc
  simp [rpcCallsOf_append, hc2, hr, hl, uploadCount, Effect.isUpload,
    rpcCallsOf, initialFormData, INITIAL_IMAGES_STATE, List.replicate]

/-- Witness for C10 (as amended): the one-image form of a premium user against services that all
succeed. -/
theorem handleSubmit_single_image_happy_path_witness :
    (Samples.oneImageScreen.formData.name ≠ "" ∧
      Samples.oneImageScreen.formData.category ≠ "" ∧
      (Samples.oneImageScreen.formData.images.filter (fun slot => slot != none)).length = 1 ∧
      (∀ slot ∈ Samples.oneImageScreen.formData.images, slot ≠ some "") ∧
      Samples.oneImageScreen.formData.video = none ∧ Samples.happyEnv.allSucceed) ∧
    (uploadCount (handleSubmit Samples.premiumCtx Samples.happyEnv Samples.oneImageScreen).2
        = 1 ∧
    (∃ params,
      rpcCallsOf (handleSubmit Samples.premiumCtx Samples.happyEnv Samples.oneImageScreen).2
        = [("insert_business_data", params)] ∧
      params.p_image_urls.length = 1 ∧ params.p_video_url = none) ∧
    (handleSubmit Samples.premiumCtx Samples.happyEnv Samples.oneImageScreen).1.formData =
      { name := "", category := "", ownerName := "", phone := "", description := "",
        referenceId := "", address := "", latitude := "", longitude := "", location := none,
        images := [none, none, none, none, none, none, none], video := none,
        workingHours := "", supportsHomeDelivery := "No" } ∧
    (handleSubmit Samples.premiumCtx Samples.happyEnv Samples.oneImageScreen).1.isUploading
      = false) :=
  ⟨⟨by decide, by decide, by decide, by decide, rfl,
      ⟨fun _ => ⟨200, "bytes", rfl⟩, fun _ _ _ => rfl, fun _ _ => rfl⟩⟩,
   handleSubmit_single_image_happy_path Samples.premiumCtx Samples.happyEnv
     Samples.oneImageScreen (by decide) (by decide) (by decide) (by decide) rfl
     ⟨fun _ => ⟨200, "bytes", rfl⟩, fun _ _ _ => rfl, fun _ _ => rfl⟩⟩

end AddBusinessScreen

/-! ## Upload order of the listing submission -/

namespace AddBusinessScreen

/-- Counterexample to C10 as stated: name and category are filled, exactly one image
slot is non-null, there is no video and every service call succeeds, but the non-null
slot holds the empty string. `handleSubmit` passes validation, makes no storage upload
and calls the RPC with an empty `p_image_urls`. -/
theorem empty_uri_slot_is_not_uploaded :
    Samples.emptyUriScreen.formData.name ≠ "" ∧
    Samples.emptyUriScreen.formData.category ≠ "" ∧
    (Samples.emptyUriScreen.formData.images.filter (fun slot => slot != none)).length = 1 ∧
    Samples.emptyUriScreen.formData.video = none ∧
    uploadCount (handleSubmit Samples.premiumCtx Samples.happyEnv Samples.emptyUriScreen).2
      = 0 ∧
    (rpcCallsOf
        (handleSubmit Samples.premiumCtx Samples.happyEnv Samples.emptyUriScreen).2).map
      (fun c => (c.1, c.2.p_image_urls, c.2.p_video_url))
      = [("insert_business_data", [], none)] := by
  decide

/-- Counterexample to C11 as stated: the first slot holds the empty string, the second
an image, and every service call succeeds. Two slots are non-null, but one upload is
made and `p_image_urls` has one entry, so it is not the list obtained by uploading the
non-null slots. -/
theorem non_null_slot_without_upload :
    (Samples.emptyThenImageScreen.formData.images.filter (fun slot => slot != none)).length
      = 2 ∧
    uploadCount
      (handleSubmit Samples.premiumCtx Samples.happyEnv Samples.emptyThenImageScreen).2 = 1 ∧
    (rpcCallsOf
        (handleSubmit Samples.premiumCtx Samples.happyEnv Samples.emptyThenImageScreen).2).map
      (fun c => c.2.p_image_urls)
      = [["https://cdn.example/business-uploads/A/1000_image_2.png"]] ∧
    (rpcCallsOf
        (handleSubmit Samples.premiumCtx Samples.happyEnv Samples.emptyThenImageScreen).2).map
      (fun c => c.2.p_image_urls)
      ≠ [expectedImageUrls Samples.happyEnv Samples.premiumCtx.session
          Samples.emptyThenImageScreen.formData.images] := by
  decide

theorem uploadImages_uploadsSucceed_urls (env : Env) (h : env.uploadsSucceed)
    (session : Option AppContext.Session) :
    ∀ (slots : List (Option String)) (i k : Nat),
      ∃ t, uploadImages env session slots i k
          = (Except.ok
              ((((slots.enumFrom i).filterMap (fun p =>
                  match p.2 with
                  | some uri => if truthyStr uri then some (p.1, uri) else none
                  | none => none)).enumFrom k).map (fun q =>
                env.getPublicUrl BUSINESS_BUCKET
                  (uploadPath env session q.1 q.2.2 "image" (toString (q.2.1 + 1)))),
               k + (slots.filter truthySlot).length), t) ∧
        uploadCount t = (slots.filter truthySlot).length ∧
        rpcCallsOf t = [] := by
  intro slots
  induction slots with
  | nil => intro i k; exact ⟨[], rfl, rfl, rfl⟩
  | cons slot rest ih =>
    intro i k
    cases slot with
    | none =>
      obtain ⟨t, he, hc, hr⟩ := ih (i + 1) k
      exact ⟨t, by simpa [uploadImages, truthySlot] using he,
        by simpa [truthySlot] using hc, hr⟩
    | some uri =>
      by_cases hu : truthyStr uri = true
      · obtain ⟨t, he, hc, hr⟩ := ih (i + 1) (k + 1)
        refine ⟨[Effect.fetch uri,
            Effect.storageUpload BUSINESS_BUCKET
              (uploadPath env session k uri "image" (toString (i + 1)))
              (uploadMime env uri "image"),
            Effect.getPublicUrl BUSINESS_BUCKET
              (uploadPath env session k uri "image" (toString (i + 1)))] ++ t, ?_, ?_, ?_⟩
        · simp only [uploadImages, hu, if_true,
            uploadFile_allSucceed_eq env h session k uri "image" (toString (i + 1)), he]
          simp [truthySlot, hu]
          omega
        · have hc2 : (t.filter Effect.isUpload).length
              = (rest.filter truthySlot).length := hc
          simp [hc2, uploadCount, Effect.isUpload, truthySlot, hu]
        · simp [rpcCallsOf_append, hr, rpcCallsOf]
      · have hu2 : truthyStr uri = false := by simpa using hu
        obtain ⟨t, he, hc, hr⟩ := ih (i + 1) k
        exact ⟨t, by simpa [uploadImages, truthySlot, hu2] using he,
          by simpa [truthySlot, hu2] using hc, hr⟩

theorem picked_length (slots : List (Option String)) :
    ∀ i, ((slots.enumFrom i).filterMap (fun p =>
        match p.2 with
        | some uri => if truthyStr uri then some (p.1, uri) else none
        | none => none)).length
      = (slots.filter truthySlot).length := by
  induction slots with
  | nil => intro i; rfl
  | cons slot rest ih =>
    intro i
    cases slot with
    | none => simpa [truthySlot] using ih (i + 1)
    | some uri =>
      by_cases hu : truthyStr uri = true
      · simpa [truthySlot, hu] using ih (i + 1)
      · have hu2 : truthyStr uri = false := by simpa using hu
        simpa [truthySlot, hu2] using ih (i + 1)

theorem expectedPickedUrls_length (env : Env) (session : Option AppContext.Session)
    (slots : List (Option String)) :
    (expectedPickedUrls env session slots).length = (slots.filter truthySlot).length := by
  simp [expectedPickedUrls, pickedSlots, picked_length]

theorem truthyStr_of_ne (x : String) (h : x ≠ "") : truthyStr x = true := by
  simp [truthyStr, h]

theorem any_selected_of_passes (formData : FormData) (h : passesValidation formData) :
    formData.images.any (fun uri => uri != none) = true := by
  obtain ⟨_, _, slot, hmem, hne⟩ := h
  rw [List.any_eq_true]
  exact ⟨slot, hmem, by simpa using hne⟩

/-- The result of `handleSubmit` on a form that passes validation, in terms of the
result of its `try` block. -/
theorem handleSubmit_of_passes (ctx : AppCtx) (env : Env) (s : ScreenState)
    (h : passesValidation s.formData) :
    handleSubmit ctx env s =
      match submitBody ctx env s.formData with
      | (Except.ok _, t) =>
        ({ s with formData := initialFormData, isUploading := false },
          [Effect.alert "Uploading" "Please wait..."] ++ t
            ++ [Effect.alert "Success" "Business Published successfully!"])
      | (Except.error e, t) =>
        ({ s with isUploading := false },
          [Effect.alert "Uploading" "Please wait..."] ++ t ++ [Effect.alert "Error" e.message]) := by
  have hn := truthyStr_of_ne _ h.1
  have hc := truthyStr_of_ne _ h.2.1
  have hany := any_selected_of_passes s.formData h
  simp only [handleSubmit, hn, hc, hany]
  rfl

/-- The trace of `handleSubmit` on a form that passes validation: the opening alert, the
calls of the `try` block, and one closing alert. -/
theorem handleSubmit_trace_of_passes (ctx : AppCtx) (env : Env) (s : ScreenState)
    (h : passesValidation s.formData) :
    ∃ title message, (handleSubmit ctx env s).2 =
      [Effect.alert "Uploading" "Please wait..."] ++ (submitBody ctx env s.formData).2
        ++ [Effect.alert title message] := by
  rw [handleSubmit_of_passes ctx env s h]
  rcases hb : submitBody ctx env s.formData with ⟨r, t⟩
  cases r with
  | error e => exact ⟨"Error", e.message, rfl⟩
  | ok u => exact ⟨"Success", "Business Published successfully!", rfl⟩

theorem submitBody_trace_uploadsSucceed (ctx : AppCtx) (env : Env) (formData : FormData)
    (henv : env.uploadsSucceed) :
    ∃ t videoUrl, (submitBody ctx env formData).2
        = t ++ [Effect.rpc "insert_business_data"
            (rpcParamsFor ctx formData (expectedPickedUrls env ctx.session formData.images)
              videoUrl)] ∧
      uploadCount t = (formData.images.filter truthySlot).length
        + (if truthySlot formData.video then 1 else 0) ∧
      rpcCallsOf t = [] := by
  obtain ⟨t, he, hc, hr⟩ :=
    uploadImages_uploadsSucceed_urls env henv ctx.session formData.images 0 0
  have hc2 : (t.filter Effect.isUpload).length
      = (formData.images.filter truthySlot).length := hc
  cases hv : formData.video with
  | none =>
    refine ⟨t ++ [], none, ?_, ?_, ?_⟩
    · simp only [submitBody, he, hv]
      generalize env.rpc _ _ = r
      rcases r with err | e
      · cases err <;> rfl
      · rfl
    · simp [uploadCount, hc2, truthySlot]
    · simp [hr]
  | some v =>
    by_cases hvt : truthyStr v = true
    · refine ⟨t ++ [Effect.fetch v,
          Effect.storageUpload BUSINESS_BUCKET
            (uploadPath env ctx.session
              (0 + (formData.images.filter truthySlot).length) v "video" "main")
            (uploadMime env v "video"),
          Effect.getPublicUrl BUSINESS_BUCKET
            (uploadPath env ctx.session
              (0 + (formData.images.filter truthySlot).length) v "video" "main")],
          some (env.getPublicUrl BUSINESS_BUCKET
            (uploadPath env ctx.session
              (0 + (formData.images.filter truthySlot).length) v "video" "main")),
          ?_, ?_, ?_⟩
      · simp only [submitBody, he, hv, hvt, if_true,
          uploadFile_allSucceed_eq env henv ctx.session _ v "video" "main"]
        generalize env.rpc _ _ = r
        rcases r with err | e
        · cases err <;> rfl
        · rfl
      · simp [uploadCount, hc2, truthySlot, hvt, Effect.isUpload]
      · simp [rpcCallsOf_append, hr, rpcCallsOf]
    · have hvf : truthyStr v = false := by simpa using hvt
      refine ⟨t ++ [], none, ?_, ?_, ?_⟩
      · simp only [submitBody, he, hv, hvf, Bool.false_eq_true, if_false]
        generalize env.rpc _ _ = r
        rcases r with err | e
        · cases err <;> rfl
        · rfl
      · simp [uploadCount, hc2, truthySlot, hvf]
      · simp [hr]

/-- C11 (as amended). For every form that passes validation, when every upload succeeds
(whatever the RPC answers) the list passed as `p_image_urls` is the list obtained by
uploading the slots that hold a non-empty URI in increasing slot order, slot `i` under
index `i + 1`; its length is the number of such slots, and the trace holds one storage
upload per such slot (plus one for a video), so a null slot, like a slot holding the
empty string, produces no upload. The image loop does so for every slot array. -/
theorem handleSubmit_uploads_in_slot_order (ctx : AppCtx) (env : Env) (s : ScreenState)
    (hvalid : passesValidation s.formData) (henv : env.uploadsSucceed) :
    (∃ params, rpcCallsOf (handleSubmit ctx env s).2 = [("insert_business_data", params)] ∧
      params.p_image_urls = expectedPickedUrls env ctx.session s.formData.images ∧
      params.p_image_urls.length = (s.formData.images.filter truthySlot).length) ∧
    uploadCount (handleSubmit ctx env s).2
      = (s.formData.images.filter truthySlot).length
        + (if truthySlot s.formData.video then 1 else 0) ∧
    (∀ slots : List (Option String),
      (uploadImages env ctx.session slots 0 0).1
        = Except.ok (expectedPickedUrls env ctx.session slots,
            0 + (slots.filter truthySlot).length) ∧
      uploadCount (uploadImages env ctx.session slots 0 0).2
        = (slots.filter truthySlot).length) := by
  obtain ⟨t, videoUrl, hb, hc, hr⟩ :=
    submitBody_trace_uploadsSucceed ctx env s.formData henv
  obtain ⟨title, message, ht⟩ := handleSubmit_trace_of_passes ctx env s hvalid
  rw [ht, hb]
  refine ⟨⟨rpcParamsFor ctx s.formData
    (expectedPickedUrls env ctx.session s.formData.images) videoUrl, ?_, rfl, ?_⟩, ?_, ?_⟩
  · simp [rpcCallsOf_append, hr, rpcCallsOf]
  · exact expectedPickedUrls_length env ctx.session s.formData.images
  · have hc2 : (t.filter Effect.isUpload).length
        = (s.formData.images.filter truthySlot).length
          + (if truthySlot s.formData.video then 1 else 0) := hc
    simp [uploadCount, hc2, Effect.isUpload]
  · intro slots
    obtain ⟨t2, he2, hc2, _⟩ :=
      uploadImages_uploadsSucceed_urls env henv ctx.session slots 0 0
    rw [he2]
    exact ⟨rfl, hc2⟩

/-- Witness for C11 (as amended): images in the second and fourth slot and a video,
against services whose RPC returns an error. -/
theorem handleSubmit_uploads_in_slot_order_witness :
    (passesValidation Samples.twoImageScreen.formData ∧
      Samples.rpcErrorEnv.uploadsSucceed) ∧
    ((∃ params,
      rpcCallsOf (handleSubmit Samples.premiumCtx Samples.rpcErrorEnv Samples.twoImageScreen).2
        = [("insert_business_data", params)] ∧
      params.p_image_urls = expectedPickedUrls Samples.rpcErrorEnv Samples.premiumCtx.session
        Samples.twoImageScreen.formData.images ∧
      params.p_image_urls.length
        = (Samples.twoImageScreen.formData.images.filter truthySlot).length) ∧
    uploadCount (handleSubmit Samples.premiumCtx Samples.rpcErrorEnv Samples.twoImageScreen).2
      = (Samples.twoImageScreen.formData.images.filter truthySlot).length
        + (if truthySlot Samples.twoImageScreen.formData.video then 1 else 0) ∧
    (∀ slots : List (Option String),
      (uploadImages Samples.rpcErrorEnv Samples.premiumCtx.session slots 0 0).1
        = Except.ok (expectedPickedUrls Samples.rpcErrorEnv Samples.premiumCtx.session slots,
            0 + (slots.filter truthySlot).length) ∧
      uploadCount (uploadImages Samples.rpcErrorEnv Samples.premiumCtx.session slots 0 0).2
        = (slots.filter truthySlot).length)) :=
  ⟨⟨⟨by decide, by decide, some "file:///b.png", by decide, by decide⟩,
      ⟨fun _ => ⟨200, "bytes", rfl⟩, fun _ _ _ => rfl⟩⟩,
   handleSubmit_uploads_in_slot_order Samples.premiumCtx Samples.rpcErrorEnv
     Samples.twoImageScreen
     ⟨by decide, by decide, some "file:///b.png", by decide, by decide⟩
     ⟨fun _ => ⟨200, "bytes", rfl⟩, fun _ _ _ => rfl⟩⟩

end AddBusinessScreen

/-! ## Failure of the listing submission -/

namespace AddBusinessScreen

theorem rpcCallsOf_uriToBuffer (env : Env) (uri : String) :
    rpcCallsOf (uriToBuffer env uri).2 = [] := by
  unfold uriToBuffer
  cases env.fetch uri with
  | rejected e => rfl
  | resolved response =>
    by_cases hok : response.ok = true
    · cases hb : response.arrayBuffer <;> simp [hok, hb, rpcCallsOf]
    · simp [hok, rpcCallsOf]

theorem rpcCallsOf_uploadFile (env : Env) (session : Option AppContext.Session) (k : Nat)
    (uri type index : String) : rpcCallsOf (uploadFile env session k uri type index).2 = [] := by
  have hb := rpcCallsOf_uriToBuffer env uri
  unfold uploadFile
  rcases hu : uriToBuffer env uri with ⟨r, t⟩
  rw [hu] at hb
  cases r with
  | error e => simpa using hb
  | ok buffer =>
    simp only
    cases env.storageUpload BUSINESS_BUCKET (uploadPath env session k uri type index)
        (uploadMime env uri type) with
    | rejected e => simpa [rpcCallsOf_append, rpcCallsOf] using hb
    | resolved err =>
      cases err with
      | none => simpa [rpcCallsOf_append, rpcCallsOf] using hb
      | some e => simpa [rpcCallsOf_append, rpcCallsOf] using hb

theorem rpcCallsOf_uploadImages (env : Env) (session : Option AppContext.Session) :
    ∀ (slots : List (Option String)) (i k : Nat),
      rpcCallsOf (uploadImages env session slots i k).2 = [] := by
  intro slots
  induction slots with
  | nil => intro i k; rfl
  | cons slot rest ih =>
    intro i k
    cases slot with
    | none => simpa [uploadImages] using ih (i + 1) k
    | some uri =>
      by_cases hu : truthyStr uri = true
      · have hf := rpcCallsOf_uploadFile env session k uri "image" (toString (i + 1))
        have hr := ih (i + 1) (k + 1)
        simp only [uploadImages, hu, if_true]
        rcases hfile : uploadFile env session k uri "image" (toString (i + 1)) with ⟨r, t⟩
        rw [hfile] at hf
        cases r with
        | error e => simpa using hf
        | ok url =>
          rcases hrest : uploadImages env session rest (i + 1) (k + 1) with ⟨r2, t2⟩
          rw [hrest] at hr
          cases r2 with
          | error e => simp [rpcCallsOf_append, hf, hr]
          | ok p => simp [rpcCallsOf_append, hf, hr]
      · have hu2 : truthyStr uri = false := by simpa using hu
        simpa [uploadImages, hu2] using ih (i + 1) k

theorem mem_rpcCallsOf (t : List Effect) (fn : String) (params : RpcParams)
    (h : Effect.rpc fn params ∈ t) : (fn, params) ∈ rpcCallsOf t := by
  induction t with
  | nil => simp at h
  | cons e rest ih =>
    rcases List.mem_cons.mp h with h1 | h1
    · subst h1; simp [rpcCallsOf]
    · cases e <;> simp [rpcCallsOf, ih h1]

theorem firstError_append (a b : List (Except JsError String × List Effect)) :
    firstError (a ++ b) = (firstError a).orElse (fun _ => firstError b) := by
  induction a with
  | nil => simp [firstError]
  | cons task rest ih =>
    rcases task with ⟨r, t⟩
    cases r with
    | error e => simp [firstError]
    | ok url => simpa [firstError] using ih

theorem firstError_of_failing_task (l : List (Except JsError String × List Effect))
    (h : ∃ task ∈ l, ∃ e, task.1 = Except.error e) : ∃ e, firstError l = some e := by
  induction l with
  | nil => obtain ⟨task, hmem, _⟩ := h; simp at hmem
  | cons task rest ih =>
    rcases task with ⟨r, t⟩
    cases r with
    | error e => exact ⟨e, rfl⟩
    | ok url =>
      have hrest : ∃ task ∈ rest, ∃ e, task.1 = Except.error e := by
        obtain ⟨task, hmem, e, he⟩ := h
        rcases List.mem_cons.mp hmem with h1 | h1
        · subst h1; simp at he
        · exact ⟨task, h1, e, he⟩
      obtain ⟨e, he⟩ := ih hrest
      exact ⟨e, by simpa [firstError] using he⟩

/-- The first failing upload of the list of attempts is the error the loop ends in; when
none fails the loop ends normally, having read the clock once per truthy slot. -/
theorem uploadImages_firstError (env : Env) (session : Option AppContext.Session) :
    ∀ (slots : List (Option String)) (i k : Nat),
      (∀ e, firstError (imageAttemptsFrom env session slots i k) = some e →
        (uploadImages env session slots i k).1 = Except.error e) ∧
      (firstError (imageAttemptsFrom env session slots i k) = none →
        ∃ urls, (uploadImages env session slots i k).1
          = Except.ok (urls, k + (slots.filter truthySlot).length)) := by
  intro slots
  induction slots with
  | nil =>
    intro i k
    exact ⟨fun e h => by simp [imageAttemptsFrom, firstError] at h, fun _ => ⟨[], rfl⟩⟩
  | cons slot rest ih =>
    intro i k
    cases slot with
    | none => simpa [imageAttemptsFrom, uploadImages, truthySlot] using ih (i + 1) k
    | some uri =>
      by_cases hu : truthyStr uri = true
      · obtain ⟨ih1, ih2⟩ := ih (i + 1) (k + 1)
        simp only [imageAttemptsFrom, uploadImages, hu, if_true]
        rcases hfile : uploadFile env session k uri "image" (toString (i + 1)) with ⟨r, tf⟩
        cases r with
        | error e0 =>
          refine ⟨fun e h => ?_, fun h => ?_⟩
          · simp only [firstError, Option.some.injEq] at h
            subst h
            rfl
          · simp [firstError] at h
        | ok url =>
          rcases hrest : uploadImages env session rest (i + 1) (k + 1) with ⟨r2, t2⟩
          rw [hrest] at ih1 ih2
          refine ⟨fun e h => ?_, fun h => ?_⟩
          · have h2 := ih1 e (by simpa [firstError] using h)
            have h3 : r2 = Except.error e := h2
            subst h3
            rfl
          · obtain ⟨urls, h2⟩ := ih2 (by simpa [firstError] using h)
            have h3 : r2 = Except.ok (urls, k + 1 + (rest.filter truthySlot).length) := h2
            subst h3
            refine ⟨url :: urls, ?_⟩
            simp [truthySlot, hu]
            omega
      · have hu2 : truthyStr uri = false := by simpa using hu
        simpa [imageAttemptsFrom, uploadImages, truthySlot, hu2] using ih (i + 1) k

/-- The two ways the `try` block of `handleSubmit` can go: an upload fails, and the
block throws the error of the first failing upload without calling the RPC; or no
upload fails, and the block calls the RPC once, throwing the error the RPC returns or
rejects with. -/
theorem submitBody_cases (ctx : AppCtx) (env : Env) (formData : FormData) :
    (∃ e, firstError (uploadAttempts ctx env formData) = some e ∧
      (submitBody ctx env formData).1 = Except.error e ∧
      rpcCallsOf (submitBody ctx env formData).2 = []) ∨
    (∃ urls videoUrl t, firstError (uploadAttempts ctx env formData) = none ∧
      rpcCallsOf t = [] ∧
      (submitBody ctx env formData).2
        = t ++ [Effect.rpc "insert_business_data" (rpcParamsFor ctx formData urls videoUrl)] ∧
      (∀ e, (env.rpc "insert_business_data" (rpcParamsFor ctx formData urls videoUrl)
            = Awaited.resolved (some e) ∨
          env.rpc "insert_business_data" (rpcParamsFor ctx formData urls videoUrl)
            = Awaited.rejected e) →
        (submitBody ctx env formData).1 = Except.error e)) := by
  have himgrpc := rpcCallsOf_uploadImages env ctx.session formData.images 0 0
  obtain ⟨h1, h2⟩ := uploadImages_firstError env ctx.session formData.images 0 0
  rcases himg : uploadImages env ctx.session formData.images 0 0 with ⟨r, t⟩
  rw [himg] at himgrpc h1 h2
  cases hfe : firstError (imageAttemptsFrom env ctx.session formData.images 0 0) with
  | some e =>
    left
    have hr : r = Except.error e := h1 e hfe
    subst hr
    refine ⟨e, ?_, ?_, ?_⟩
    · simp [uploadAttempts, firstError_append, hfe]
    · simp only [submitBody, himg]
    · simp only [submitBody, himg]
      exact himgrpc
  | none =>
    obtain ⟨urls, hr⟩ := h2 hfe
    rw [Nat.zero_add] at hr
    have hr2 : r = Except.ok (urls, (formData.images.filter truthySlot).length) := hr
    subst hr2
    have hnovideo : ∀ (hva : videoAttempt env ctx.session
          (formData.images.filter truthySlot).length formData.video = [])
        (hsb : ∀ rr : Awaited (Option JsError),
          (submitBody ctx env formData).2 = t ++ []
              ++ [Effect.rpc "insert_business_data" (rpcParamsFor ctx formData urls none)] ∧
          (env.rpc "insert_business_data" (rpcParamsFor ctx formData urls none) = rr →
            ∀ e, (rr = Awaited.resolved (some e) ∨ rr = Awaited.rejected e) →
              (submitBody ctx env formData).1 = Except.error e)),
        ∃ urls videoUrl t, firstError (uploadAttempts ctx env formData) = none ∧
          rpcCallsOf t = [] ∧
          (submitBody ctx env formData).2
            = t ++ [Effect.rpc "insert_business_data"
                (rpcParamsFor ctx formData urls videoUrl)] ∧
          (∀ e, (env.rpc "insert_business_data" (rpcParamsFor ctx formData urls videoUrl)
                = Awaited.resolved (some e) ∨
              env.rpc "insert_business_data" (rpcParamsFor ctx formData urls videoUrl)
                = Awaited.rejected e) →
            (submitBody ctx env formData).1 = Except.error e) := by
      intro hva hsb
      refine ⟨urls, none, t ++ [], ?_, ?_, (hsb (Awaited.resolved none)).1, ?_⟩
      · simp [uploadAttempts, firstError_append, hfe, hva, firstError]
      · simpa using himgrpc
      · intro e he
        exact (hsb _).2 rfl e he
    cases hv : formData.video with
    | none =>
      right
      refine hnovideo (by simp [videoAttempt, hv]) ?_
      intro rr
      simp only [submitBody, himg, hv, rpcParamsFor]
      refine ⟨?_, ?_⟩
      · generalize env.rpc _ _ = r
        rcases r with err | e
        · cases err <;> rfl
        · rfl
      · intro hrr e he
        rw [hrr]
        rcases he with he | he <;> subst he <;> rfl
    | some v =>
      by_cases hvt : truthyStr v = true
      · rcases hfile : uploadFile env ctx.session (formData.images.filter truthySlot).length
            v "video" "main" with ⟨rv, tv⟩
        have hvrpc := rpcCallsOf_uploadFile env ctx.session
          (formData.images.filter truthySlot).length v "video" "main"
        rw [hfile] at hvrpc
        cases rv with
        | error e =>
          left
          refine ⟨e, ?_, ?_, ?_⟩
          · simp [uploadAttempts, firstError_append, hfe, videoAttempt, hv, hvt, hfile,
              firstError]
          · simp only [submitBody, himg, hv, hvt, if_true, hfile]
          · simp only [submitBody, himg, hv, hvt, if_true, hfile]
            simp [rpcCallsOf_append, himgrpc, hvrpc]
        | ok url =>
          right
          refine ⟨urls, some url, t ++ tv, ?_, ?_, ?_, ?_⟩
          · simp [uploadAttempts, firstError_append, hfe, videoAttempt, hv, hvt, hfile,
              firstError]
          · simp [rpcCallsOf_append, himgrpc, hvrpc]
          · simp only [submitBody, himg, hv, hvt, if_true, hfile, rpcParamsFor]
            generalize env.rpc _ _ = r
            rcases r with err | e
            · cases err <;> rfl
            · rfl
          · intro e he
            simp only [rpcParamsFor] at he
            simp only [submitBody, himg, hv, hvt, if_true, hfile]
            rcases he with he | he <;> rw [he]
      · have hvf : truthyStr v = false := by simpa using hvt
        right
        refine hnovideo (by simp [videoAttempt, hv, hvf]) ?_
        intro rr
        simp only [submitBody, himg, hv, hvf, Bool.false_eq_true, if_false, rpcParamsFor]
        refine ⟨?_, ?_⟩
        · generalize env.rpc _ _ = r
          rcases r with err | e
          · cases err <;> rfl
          · rfl
        · intro hrr e he
          rw [hrr]
          rcases he with he | he <;> subst he <;> rfl

theorem handleSubmit_of_error (ctx : AppCtx) (env : Env) (s : ScreenState)
    (hvalid : passesValidation s.formData) (e : JsError)
    (he : (submitBody ctx env s.formData).1 = Except.error e) :
    (handleSubmit ctx env s).1 = { s with isUploading := false } ∧
    (handleSubmit ctx env s).2 = [Effect.alert "Uploading" "Please wait..."]
      ++ (submitBody ctx env s.formData).2 ++ [Effect.alert "Error" e.message] := by
  rw [handleSubmit_of_passes ctx env s hvalid]
  rcases hb : submitBody ctx env s.formData with ⟨r, t⟩
  rw [hb] at he
  have hr : r = Except.error e := he
  subst hr
  exact ⟨rfl, rfl⟩

/-- C12. For a form that passes validation: if one of the uploads of the submission
fails, `handleSubmit` never calls the RPC, leaves `formData` as it was, ends with
`isUploading` false and closes with an alert carrying the message of the first failing
upload, which is the error thrown; and if the RPC call it makes returns an error (or
rejects), `formData` is likewise left as it was, `isUploading` ends false and the
closing alert carries the message of that error. -/
theorem handleSubmit_failure_keeps_form (ctx : AppCtx) (env : Env) (s : ScreenState)
    (hvalid : passesValidation s.formData) :
    ((∃ task ∈ uploadAttempts ctx env s.formData, ∃ e0, task.1 = Except.error e0) →
      ∃ e, firstError (uploadAttempts ctx env s.formData) = some e ∧
        rpcCallsOf (handleSubmit ctx env s).2 = [] ∧
        (handleSubmit ctx env s).1.formData = s.formData ∧
        (handleSubmit ctx env s).1.isUploading = false ∧
        (handleSubmit ctx env s).2.getLast? = some (Effect.alert "Error" e.message)) ∧
    (∀ params e, Effect.rpc "insert_business_data" params ∈ (handleSubmit ctx env s).2 →
      (env.rpc "insert_business_data" params = Awaited.resolved (some e) ∨
        env.rpc "insert_business_data" params = Awaited.rejected e) →
      (handleSubmit ctx env s).1.formData = s.formData ∧
      (handleSubmit ctx env s).1.isUploading = false ∧
      (handleSubmit ctx env s).2.getLast? = some (Effect.alert "Error" e.message)) := by
  refine ⟨?_, ?_⟩
  · intro hfail
    obtain ⟨e, hfe⟩ := firstError_of_failing_task _ hfail
    rcases submitBody_cases ctx env s.formData with ⟨e2, h1, h2, h3⟩ | ⟨_, _, _, h1, _⟩
    · rw [hfe] at h1
      have hee : e = e2 := Option.some.inj h1
      subst hee
      obtain ⟨hst, htr⟩ := handleSubmit_of_error ctx env s hvalid e h2
      refine ⟨e, hfe, ?_, ?_, ?_, ?_⟩
      · rw [htr]
        simp [rpcCallsOf_append, h3, rpcCallsOf]
      · rw [hst]
      · rw [hst]
      · rw [htr]
        exact List.getLast?_concat _
    · rw [hfe] at h1
      simp at h1
  · intro params e hmem he
    have hcall := mem_rpcCallsOf _ _ _ hmem
    obtain ⟨title, message, htr⟩ := handleSubmit_trace_of_passes ctx env s hvalid
    rcases submitBody_cases ctx env s.formData with ⟨e2, _, _, h3⟩ | ⟨urls, videoUrl, t, _, ht, hb, herr⟩
    · rw [htr] at hcall
      simp [rpcCallsOf_append, h3, rpcCallsOf] at hcall
    · rw [htr, hb] at hcall
      simp [rpcCallsOf_append, ht, rpcCallsOf] at hcall
      rw [hcall] at he
      have hbody := herr e he
      obtain ⟨hst, htr2⟩ := handleSubmit_of_error ctx env s hvalid e hbody
      refine ⟨?_, ?_, ?_⟩
      · rw [hst]
      · rw [hst]
      · rw [htr2]
        exact List.getLast?_concat _

/-- Witness for C12: the one-image form of a signed-in user when every fetch answers
404, so that its one upload fails. -/
theorem handleSubmit_failure_keeps_form_witness :
    (passesValidation Samples.oneImageScreen.formData ∧
      ∃ task ∈ uploadAttempts Samples.premiumCtx Samples.fetch404Env
        Samples.oneImageScreen.formData, ∃ e0, task.1 = Except.error e0) ∧
    (((∃ task ∈ uploadAttempts Samples.premiumCtx Samples.fetch404Env
          Samples.oneImageScreen.formData, ∃ e0, task.1 = Except.error e0) →
      ∃ e, firstError (uploadAttempts Samples.premiumCtx Samples.fetch404Env
          Samples.oneImageScreen.formData) = some e ∧
        rpcCallsOf (handleSubmit Samples.premiumCtx Samples.fetch404Env
          Samples.oneImageScreen).2 = [] ∧
        (handleSubmit Samples.premiumCtx Samples.fetch404Env Samples.oneImageScreen).1.formData
          = Samples.oneImageScreen.formData ∧
        (handleSubmit Samples.premiumCtx Samples.fetch404Env
          Samples.oneImageScreen).1.isUploading = false ∧
        (handleSubmit Samples.premiumCtx Samples.fetch404Env
          Samples.oneImageScreen).2.getLast? = some (Effect.alert "Error" e.message)) ∧
    (∀ params e, Effect.rpc "insert_business_data" params
        ∈ (handleSubmit Samples.premiumCtx Samples.fetch404Env Samples.oneImageScreen).2 →
      (Samples.fetch404Env.rpc "insert_business_data" params = Awaited.resolved (some e) ∨
        Samples.fetch404Env.rpc "insert_business_data" params = Awaited.rejected e) →
      (handleSubmit Samples.premiumCtx Samples.fetch404Env Samples.oneImageScreen).1.formData
        = Samples.oneImageScreen.formData ∧
      (handleSubmit Samples.premiumCtx Samples.fetch404Env
        Samples.oneImageScreen).1.isUploading = false ∧
      (handleSubmit Samples.premiumCtx Samples.fetch404Env
        Samples.oneImageScreen).2.getLast? = some (Effect.alert "Error" e.message))) :=
  ⟨⟨⟨by decide, by decide, some "file:///a.JPG", by decide, by decide⟩,
      ⟨(Except.error { message := "Failed to fetch URI: 404", code := none },
          [Effect.fetch "file:///a.JPG"]),
        List.mem_singleton.mpr rfl,
        { message := "Failed to fetch URI: 404", code := none }, rfl⟩⟩,
   handleSubmit_failure_keeps_form Samples.premiumCtx Samples.fetch404Env
     Samples.oneImageScreen
     ⟨by decide, by decide, some "file:///a.JPG", by decide, by decide⟩⟩

/-- Three failing runs in full. A fetch answering 404 on the one-image form; a storage
error on the single path of the second image of the two-image form, the first image
having been uploaded; and an RPC that returns an error after the upload. In each the
closing alert carries the message of the error thrown and the form is left as it was. -/
theorem handleSubmit_failure_traces :
    (handleSubmit Samples.premiumCtx Samples.fetch404Env Samples.oneImageScreen).2
      = [Effect.alert "Uploading" "Please wait...", Effect.fetch "file:///a.JPG",
         Effect.alert "Error" "Failed to fetch URI: 404"] ∧
    firstError (uploadAttempts Samples.premiumCtx Samples.secondUploadFailsEnv
      Samples.twoImageScreen.formData) = some Samples.quotaError ∧
    uploadCount
      (handleSubmit Samples.premiumCtx Samples.secondUploadFailsEnv Samples.twoImageScreen).2
      = 2 ∧
    rpcCallsOf
      (handleSubmit Samples.premiumCtx Samples.secondUploadFailsEnv Samples.twoImageScreen).2
      = [] ∧
    (handleSubmit Samples.premiumCtx Samples.secondUploadFailsEnv
      Samples.twoImageScreen).2.getLast?
      = some (Effect.alert "Error" "storage quota exceeded") ∧
    (handleSubmit Samples.premiumCtx Samples.secondUploadFailsEnv Samples.twoImageScreen).1
      = Samples.twoImageScreen ∧
    uploadCount (handleSubmit Samples.premiumCtx Samples.rpcErrorEnv Samples.oneImageScreen).2
      = 1 ∧
    (rpcCallsOf
      (handleSubmit Samples.premiumCtx Samples.rpcErrorEnv Samples.oneImageScreen).2).length
      = 1 ∧
    (handleSubmit Samples.premiumCtx Samples.rpcErrorEnv Samples.oneImageScreen).2.getLast?
      = some (Effect.alert "Error" "insert failed") ∧
    (handleSubmit Samples.premiumCtx Samples.rpcErrorEnv Samples.oneImageScreen).1
      = Samples.oneImageScreen ∧
    (rpcCallsOf
      (handleSubmit Samples.premiumCtx Samples.happyEnv Samples.twoImageScreen).2).map
        (fun c => c.2.p_image_urls)
      = [["https://cdn.example/business-uploads/A/1000_image_2.png",
          "https://cdn.example/business-uploads/A/1001_image_4.jpg"]] := by
  decide

end AddBusinessScreen

/-! ## Job-application screen -/

namespace SalesExecutiveFormScreen

theorem insertsOf_append (a b : List Effect) :
    insertsOf (a ++ b) = insertsOf a ++ insertsOf b := by
  induction a with
  | nil => rfl
  | cons e rest ih => cases e <;> simp [insertsOf, ih]

theorem truthyDoc_false_of_missing (doc : Option String) (h : missing doc) :
    truthyDoc doc = false := by
  rcases h with h | h <;> subst h <;> rfl

/-- C13. When at least one of the five documents is missing (null or empty),
`handleSubmit` returns after a single alert: its trace holds no file read, no storage
call and no insert, and the screen state, `submitted` included, is unchanged. -/
theorem handleSubmit_missing_document_blocks (env : Env) (s : ScreenState)
    (h : missing s.formData.passportPhoto ∨ missing s.formData.aadharDoc ∨
      missing s.formData.panDoc ∨ missing s.formData.bankDoc ∨
      missing s.formData.signature) :
    (handleSubmit env s).1 = s ∧
    (handleSubmit env s).1.submitted = s.submitted ∧
    (∃ title message, (handleSubmit env s).2 = [Effect.alert title message]) ∧
    (∀ e ∈ (handleSubmit env s).2, Effect.isExternal e = false) ∧
    insertsOf (handleSubmit env s).2 = [] := by
  by_cases hreq : (!truthyStr s.formData.fullName || !truthyStr s.formData.email
      || !truthyStr s.formData.phone || !s.formData.termsAccepted) = true
  · simp only [handleSubmit, hreq, if_true]
    simp [Effect.isExternal, insertsOf]
  · have hdocs : (!truthyDoc s.formData.passportPhoto || !truthyDoc s.formData.aadharDoc
        || !truthyDoc s.formData.panDoc || !truthyDoc s.formData.bankDoc
        || !truthyDoc s.formData.signature) = true := by
      rcases h with h | h | h | h | h <;>
        simp [truthyDoc_false_of_missing _ h]
    simp only [handleSubmit, hreq, hdocs, if_true]
    simp [Effect.isExternal, insertsOf]

/-- Witness for C13: every field filled but the signature. -/
theorem handleSubmit_missing_document_blocks_witness :
    (missing Samples.unsignedScreen.formData.passportPhoto ∨
      missing Samples.unsignedScreen.formData.aadharDoc ∨
      missing Samples.unsignedScreen.formData.panDoc ∨
      missing Samples.unsignedScreen.formData.bankDoc ∨
      missing Samples.unsignedScreen.formData.signature) ∧
    ((handleSubmit Samples.salesEnv Samples.unsignedScreen).1 = Samples.unsignedScreen ∧
    (handleSubmit Samples.salesEnv Samples.unsignedScreen).1.submitted
      = Samples.unsignedScreen.submitted ∧
    (∃ title message,
      (handleSubmit Samples.salesEnv Samples.unsignedScreen).2 = [Effect.alert title message]) ∧
    (∀ e ∈ (handleSubmit Samples.salesEnv Samples.unsignedScreen).2,
      Effect.isExternal e = false) ∧
    insertsOf (handleSubmit Samples.salesEnv Samples.unsignedScreen).2 = []) :=
  ⟨Or.inr (Or.inr (Or.inr (Or.inr (Or.inl rfl)))),
   handleSubmit_missing_document_blocks Samples.salesEnv Samples.unsignedScreen
     (Or.inr (Or.inr (Or.inr (Or.inr (Or.inl rfl)))))⟩

theorem insertsOf_uploadFile (env : Env) (seId : String) (uri : Option String)
    (field : String) : insertsOf (uploadFile env seId uri field).2 = [] := by
  unfold uploadFile
  cases uri with
  | none => rfl
  | some u =>
    by_cases hu : truthyStr u = true
    · simp only [hu, Bool.not_true, Bool.false_eq_true, if_false]
      cases env.readAsStringAsync u with
      | rejected e => rfl
      | resolved base64 =>
        simp only
        cases env.storageUpload BUCKET_NAME (seId ++ "/" ++ field ++ "." ++ fileExtension u)
            (contentTypeOf (fileExtension u)) with
        | rejected e => rfl
        | resolved err =>
          cases err with
          | none => rfl
          | some e => rfl
    · have hu2 : truthyStr u = false := by simpa using hu
      simp [hu2, insertsOf]

theorem insertsOf_promiseAll (tasks : List (Except JsError (Option String) × List Effect))
    (h : ∀ task ∈ tasks, insertsOf task.2 = []) : insertsOf (promiseAll tasks).2 = [] := by
  induction tasks with
  | nil => rfl
  | cons task rest ih =>
    rcases task with ⟨r, t⟩
    have ht : insertsOf t = [] := h (r, t) (List.mem_cons_self _ _)
    have hrest := ih (fun x hx => h x (List.mem_cons_of_mem _ hx))
    rcases hp : promiseAll rest with ⟨r2, t2⟩
    rw [hp] at hrest
    cases r with
    | error e => simp [promiseAll, hp, insertsOf_append, ht, hrest]
    | ok url =>
      cases r2 with
      | error e => simp [promiseAll, hp, insertsOf_append, ht, hrest]
      | ok urls => simp [promiseAll, hp, insertsOf_append, ht, hrest]

theorem promiseAll_error_of_task (tasks : List (Except JsError (Option String) × List Effect))
    (h : ∃ task ∈ tasks, ∃ e, task.1 = Except.error e) :
    ∃ e, (promiseAll tasks).1 = Except.error e := by
  induction tasks with
  | nil => obtain ⟨task, hmem, _⟩ := h; simp at hmem
  | cons task rest ih =>
    rcases task with ⟨r, t⟩
    rcases hp : promiseAll rest with ⟨r2, t2⟩
    cases r with
    | error e => exact ⟨e, by simp [promiseAll, hp]⟩
    | ok url =>
      have hrest : ∃ task ∈ rest, ∃ e, task.1 = Except.error e := by
        obtain ⟨task, hmem, e, he⟩ := h
        rcases List.mem_cons.mp hmem with h1 | h1
        · subst h1; simp at he
        · exact ⟨task, h1, e, he⟩
      obtain ⟨e, he⟩ := ih hrest
      rw [hp] at he
      cases r2 with
      | error e2 => exact ⟨e2, by simp [promiseAll, hp]⟩
      | ok urls => simp at he

theorem promiseAll_ok_of_all (tasks : List (Except JsError (Option String) × List Effect))
    (h : ∀ task ∈ tasks, ∃ url, task.1 = Except.ok url) :
    ∃ urls, (promiseAll tasks).1 = Except.ok urls := by
  induction tasks with
  | nil => exact ⟨[], rfl⟩
  | cons task rest ih =>
    rcases task with ⟨r, t⟩
    obtain ⟨url, hurl⟩ := h (r, t) (List.mem_cons_self _ _)
    obtain ⟨urls, hurls⟩ := ih (fun x hx => h x (List.mem_cons_of_mem _ hx))
    rcases hp : promiseAll rest with ⟨r2, t2⟩
    rw [hp] at hurls
    have hr : r = Except.ok url := hurl
    have hr2 : r2 = Except.ok urls := hurls
    subst hr hr2
    exact ⟨url :: urls, by simp [promiseAll, hp]⟩

theorem insertsOf_documentUploads (env : Env) (formData : FormData) :
    insertsOf (promiseAll (documentUploads env formData)).2 = [] := by
  apply insertsOf_promiseAll
  intro task hmem
  simp only [documentUploads, List.mem_cons, List.mem_singleton, List.not_mem_nil,
    or_false] at hmem
  rcases hmem with h | h | h | h | h <;> subst h <;> exact insertsOf_uploadFile _ _ _ _

/-- The result of `handleSubmit` on a form that passes validation. -/
theorem application_handleSubmit_of_passes (env : Env) (s : ScreenState)
    (h : passesValidation s.formData) :
    handleSubmit env s =
      match submitBody env s.formData with
      | (Except.ok _, t) => ({ s with submitted := true }, t)
      | (Except.error _, t) =>
        (s, t ++ [Effect.consoleError "Submission Error:",
                  Effect.alert "Submission Failed 😔" "Something went wrong. Please check logs."]) := by
  obtain ⟨h1, h2, h3, h4, h5, h6, h7, h8, h9⟩ := h
  have hn : truthyStr s.formData.fullName = true := by simp [truthyStr, h1]
  have he : truthyStr s.formData.email = true := by simp [truthyStr, h2]
  have hp : truthyStr s.formData.phone = true := by simp [truthyStr, h3]
  simp only [handleSubmit, hn, he, hp, h4, h5, h6, h7, h8, h9]
  rfl

theorem submitBody_of_upload_error (env : Env) (formData : FormData) (e : JsError)
    (h : (promiseAll (documentUploads env formData)).1 = Except.error e) :
    submitBody env formData = (Except.error e, (promiseAll (documentUploads env formData)).2) := by
  unfold submitBody
  rcases hp : promiseAll (documentUploads env formData) with ⟨r, t⟩
  rw [hp] at h
  have hr : r = Except.error e := h
  subst hr
  rfl

theorem insertsOf_submitBody_of_upload_ok (env : Env) (formData : FormData)
    (urls : List (Option String))
    (h : (promiseAll (documentUploads env formData)).1 = Except.ok urls) :
    ∃ submission, insertsOf (submitBody env formData).2 = [("job_applications", submission)] := by
  have hins := insertsOf_documentUploads env formData
  unfold submitBody
  rcases hp : promiseAll (documentUploads env formData) with ⟨r, t⟩
  rw [hp] at h hins
  have hr : r = Except.ok urls := h
  have ht : insertsOf t = [] := hins
  subst hr
  refine ⟨submissionFor env formData urls, ?_⟩
  simp only
  split <;> simp [insertsOf_append, ht, insertsOf]

/-- A file read that throws, or a storage upload that returns an error, makes the
upload of a selected document fail. -/
theorem uploadFile_fails_of_service_failure (env : Env) (seId uri field : String)
    (hne : uri ≠ "")
    (h : (∃ e, env.readAsStringAsync uri = Awaited.rejected e) ∨
      (∃ e, ∀ bucket path mime, env.storageUpload bucket path mime = Awaited.resolved (some e))) :
    ∃ e, (uploadFile env seId (some uri) field).1 = Except.error e := by
  have ht : truthyStr uri = true := by simp [truthyStr, hne]
  unfold uploadFile
  simp only [ht, Bool.not_true, Bool.false_eq_true, if_false]
  rcases h with ⟨e, he⟩ | ⟨e, he⟩
  · exact ⟨e, by simp only [he]⟩
  · cases hr : env.readAsStringAsync uri with
    | rejected e2 => exact ⟨e2, rfl⟩
    | resolved base64 => exact ⟨e, by simp only [he]⟩

theorem task_ok_or_error (task : Except JsError (Option String) × List Effect) :
    (∃ url, task.1 = Except.ok url) ∨ (∃ e, task.1 = Except.error e) := by
  rcases task with ⟨r, t⟩
  cases r with
  | error e => exact Or.inr ⟨e, rfl⟩
  | ok url => exact Or.inl ⟨url, rfl⟩

/-- C14. For a form that passes validation: if one of the five document uploads fails,
the `job_applications` insert is never called and `submitted` keeps its value (false
before a first success); if all five succeed, the insert is called exactly once; so an
insert in the trace means that all five uploads succeeded. -/
theorem handleSubmit_all_or_nothing (env : Env) (s : ScreenState)
    (hvalid : passesValidation s.formData) :
    (someUploadFails env s.formData →
      insertsOf (handleSubmit env s).2 = [] ∧
      (handleSubmit env s).1.submitted = s.submitted) ∧
    (allUploadsSucceed env s.formData →
      ∃ submission, insertsOf (handleSubmit env s).2 = [("job_applications", submission)]) ∧
    (insertsOf (handleSubmit env s).2 ≠ [] → allUploadsSucceed env s.formData) ∧
    (insertsOf (handleSubmit env s).2).length ≤ 1 := by
  have hfailcase : someUploadFails env s.formData →
      insertsOf (handleSubmit env s).2 = [] ∧
      (handleSubmit env s).1.submitted = s.submitted := by
    intro hfail
    obtain ⟨e, he⟩ := promiseAll_error_of_task _ hfail
    have hb := submitBody_of_upload_error env s.formData e he
    have hins := insertsOf_documentUploads env s.formData
    rw [application_handleSubmit_of_passes env s hvalid, hb]
    simp [insertsOf_append, hins, insertsOf]
  have hokcase : allUploadsSucceed env s.formData →
      ∃ submission, insertsOf (handleSubmit env s).2 = [("job_applications", submission)] := by
    intro hall
    obtain ⟨urls, hurls⟩ := promiseAll_ok_of_all _ hall
    obtain ⟨submission, hsub⟩ := insertsOf_submitBody_of_upload_ok env s.formData urls hurls
    refine ⟨submission, ?_⟩
    rw [application_handleSubmit_of_passes env s hvalid]
    rcases hb : submitBody env s.formData with ⟨r, t⟩
    rw [hb] at hsub
    cases r with
    | error e => simpa [insertsOf_append, insertsOf] using hsub
    | ok u => simpa using hsub
  have hdich : allUploadsSucceed env s.formData ∨ someUploadFails env s.formData := by
    by_cases hall : allUploadsSucceed env s.formData
    · exact Or.inl hall
    · right
      unfold allUploadsSucceed at hall
      push_neg at hall
      obtain ⟨task, hmem, hno⟩ := hall
      rcases task_ok_or_error task with ⟨url, hu⟩ | ⟨e, he⟩
      · exact absurd hu (hno url)
      · exact ⟨task, hmem, e, he⟩
  refine ⟨hfailcase, hokcase, ?_, ?_⟩
  · intro hne
    rcases hdich with h | h
    · exact h
    · exact absurd (hfailcase h).1 hne
  · rcases hdich with h | h
    · obtain ⟨submission, hs⟩ := hokcase h
      simp [hs]
    · simp [(hfailcase h).1]

/-- Witness for C14: the full application when the PAN document cannot be read. -/
theorem handleSubmit_all_or_nothing_witness :
    passesValidation Samples.fullApplicationScreen.formData ∧
    ((someUploadFails Samples.panUnreadableEnv Samples.fullApplicationScreen.formData →
      insertsOf (handleSubmit Samples.panUnreadableEnv Samples.fullApplicationScreen).2 = [] ∧
      (handleSubmit Samples.panUnreadableEnv Samples.fullApplicationScreen).1.submitted
        = Samples.fullApplicationScreen.submitted) ∧
    (allUploadsSucceed Samples.panUnreadableEnv Samples.fullApplicationScreen.formData →
      ∃ submission,
        insertsOf (handleSubmit Samples.panUnreadableEnv Samples.fullApplicationScreen).2
          = [("job_applications", submission)]) ∧
    (insertsOf (handleSubmit Samples.panUnreadableEnv Samples.fullApplicationScreen).2 ≠ [] →
      allUploadsSucceed Samples.panUnreadableEnv Samples.fullApplicationScreen.formData) ∧
    (insertsOf
      (handleSubmit Samples.panUnreadableEnv Samples.fullApplicationScreen).2).length ≤ 1) :=
  ⟨⟨by decide, by decide, by decide, rfl, rfl, rfl, rfl, rfl, rfl⟩,
   handleSubmit_all_or_nothing Samples.panUnreadableEnv Samples.fullApplicationScreen
     ⟨by decide, by decide, by decide, rfl, rfl, rfl, rfl, rfl, rfl⟩⟩

/-- The full application against the two sample services: with an unreadable PAN
document the other four uploads are made, nothing is inserted and `submitted` stays
false; when all succeed there are five uploads, one insert and `submitted` is true. -/
theorem handleSubmit_sample_runs :
    someUploadFails Samples.panUnreadableEnv Samples.fullApplicationScreen.formData ∧
    insertsOf (handleSubmit Samples.panUnreadableEnv Samples.fullApplicationScreen).2 = [] ∧
    (handleSubmit Samples.panUnreadableEnv Samples.fullApplicationScreen).1.submitted = false ∧
    ((handleSubmit Samples.panUnreadableEnv Samples.fullApplicationScreen).2.filter
      (fun e => e matches Effect.storageUpload _ _ _)).length = 4 ∧
    ((handleSubmit Samples.salesEnv Samples.fullApplicationScreen).2.filter
      (fun e => e matches Effect.storageUpload _ _ _)).length = 5 ∧
    (insertsOf (handleSubmit Samples.salesEnv Samples.fullApplicationScreen).2).length = 1 ∧
    (handleSubmit Samples.salesEnv Samples.fullApplicationScreen).1.submitted = true := by
  refine ⟨⟨_, List.mem_cons_of_mem _ (List.mem_cons_of_mem _ (List.mem_cons_self _ _)),
    { message := "file not found", code := none }, rfl⟩, ?_, ?_, ?_, ?_, ?_, ?_⟩ <;> decide

/-- The part of the required-field check the code makes: an empty full name, email or
phone, or terms not accepted, ends `handleSubmit` after one alert. -/
theorem handleSubmit_checked_fields_block (env : Env) (s : ScreenState)
    (h : s.formData.fullName = "" ∨ s.formData.email = "" ∨ s.formData.phone = "" ∨
      s.formData.termsAccepted = false) :
    handleSubmit env s =
      (s, [Effect.alert "Error" "Please fill all required fields and accept terms"]) := by
  have hreq : (!truthyStr s.formData.fullName || !truthyStr s.formData.email
      || !truthyStr s.formData.phone || !s.formData.termsAccepted) = true := by
    rcases h with h | h | h | h <;> simp [truthyStr, h]
  simp only [handleSubmit, hreq, if_true]

/-- Evaluation for C19: date of birth, Aadhar number, PAN number and banking details
are empty, everything else is filled and every service call succeeds. `handleSubmit`
makes the five uploads, inserts a record carrying the four empty values and sets
`submitted`: the submission is not rejected. -/
theorem handleSubmit_accepts_empty_starred_fields :
    Samples.starredEmptyScreen.formData.dob = "" ∧
    Samples.starredEmptyScreen.formData.aadhar = "" ∧
    Samples.starredEmptyScreen.formData.pan = "" ∧
    Samples.starredEmptyScreen.formData.bankDetails = "" ∧
    ((handleSubmit Samples.salesEnv Samples.starredEmptyScreen).2.filter
      (fun e => e matches Effect.storageUpload _ _ _)).length = 5 ∧
    (insertsOf (handleSubmit Samples.salesEnv Samples.starredEmptyScreen).2).map
      (fun c => (c.1, c.2.dob, c.2.aadhar, c.2.pan, c.2.bank_details))
      = [("job_applications", "", "", "", "")] ∧
    (handleSubmit Samples.salesEnv Samples.starredEmptyScreen).1.submitted = true := by
  decide

end SalesExecutiveFormScreen

/-! ## Auth functions, session invariant and directory gateway -/

namespace AppContext

/-- C15. `login` never throws. It returns `{ success: true }` exactly when the client
exists and `signInWithPassword` resolves without an error; when the call returns an
error or rejects it returns `{ success: false, error }` with that error's message; and
in every case session, user and the premium flag are left as they were. -/
theorem login_reports_outcome (supabase : Option AuthService) (email password : String)
    (st : ProviderState) :
    (∃ r, (login supabase email password st).1 = Completion.returned r) ∧
    ((login supabase email password st).1 = Completion.returned AuthResult.success ↔
      ∃ auth, supabase = some auth ∧
        auth.signInWithPassword email password = Awaited.resolved none) ∧
    (∀ auth e, supabase = some auth →
      (auth.signInWithPassword email password = Awaited.resolved (some e) ∨
        auth.signInWithPassword email password = Awaited.rejected e) →
      (login supabase email password st).1
        = Completion.returned (AuthResult.failure e.message)) ∧
    (login supabase email password st).2.1.session = st.session ∧
    (login supabase email password st).2.1.user = st.user ∧
    isPremium (login supabase email password st).2.1 = isPremium st := by
  refine ⟨?_, ?_, ?_, ?_, ?_, ?_⟩
  · cases supabase with
    | none => simp [login]
    | some auth =>
      cases h : auth.signInWithPassword email password with
      | rejected e => simp [login, h]
      | resolved err => cases err <;> simp [login, h]
  · cases supabase with
    | none => simp [login]
    | some auth =>
      cases h : auth.signInWithPassword email password with
      | rejected e => simp [login, h]
      | resolved err => cases err <;> simp [login, h]
  · intro auth e hs hfail
    subst hs
    rcases hfail with h | h <;> simp [login, h]
  · cases supabase with
    | none => simp [login]
    | some auth =>
      cases h : auth.signInWithPassword email password with
      | rejected e => simp [login, h]
      | resolved err => cases err <;> simp [login, h]
  · cases supabase with
    | none => simp [login]
    | some auth =>
      cases h : auth.signInWithPassword email password with
      | rejected e => simp [login, h]
      | resolved err => cases err <;> simp [login, h]
  · cases supabase with
    | none => simp [login, isPremium]
    | some auth =>
      cases h : auth.signInWithPassword email password with
      | rejected e => simp [login, h, isPremium]
      | resolved err => cases err <;> simp [login, h, isPremium]

/-- A failed sign-in leaves the loading flag false: `login` and `signInWithGoogle`
both reset it in their `catch`. -/
theorem sign_in_failure_clears_loading (supabase : Option AuthService)
    (email password : String) (st : ProviderState) :
    ((login supabase email password st).1 ≠ Completion.returned AuthResult.success →
      (login supabase email password st).2.1.isLoadingSession = false) ∧
    ((signInWithGoogle supabase st).1 ≠ Completion.returned AuthResult.success →
      (signInWithGoogle supabase st).2.1.isLoadingSession = false) ∧
    (∃ r, (signInWithGoogle supabase st).1 = Completion.returned r) := by
  cases supabase with
  | none => simp [login, signInWithGoogle]
  | some auth =>
    refine ⟨?_, ?_, ?_⟩
    · cases h : auth.signInWithPassword email password with
      | rejected e => simp [login, h]
      | resolved err => cases err <;> simp [login, h]
    · cases h : auth.signInWithOAuth "google" with
      | rejected e => simp [signInWithGoogle, h]
      | resolved err => cases err <;> simp [signInWithGoogle, h]
    · cases h : auth.signInWithOAuth "google" with
      | rejected e => simp [signInWithGoogle, h]
      | resolved err => cases err <;> simp [signInWithGoogle, h]

/-- The loading flag is true after `logout`, whatever `signOut` did. -/
theorem logout_leaves_loading (supabase : Option AuthService) (st : ProviderState) :
    (logout supabase st).1 = Completion.returned () ∧
    (logout supabase st).2.1.isLoadingSession = true := by
  cases supabase with
  | none => simp [logout]
  | some auth => cases h : auth.signOut <;> simp [logout, h]

/-- Evaluation for C16: A is signed in, nothing is loading, and every auth call fails.
`login` and `signInWithGoogle` return a failure with the loading flag false; `logout`
returns as well, but with the loading flag true, both when `signOut` rejects and when
it resolves with an error. -/
theorem logout_failure_keeps_loading :
    Samples.plainA.isLoadingSession = false ∧
    (login (some Samples.downAuth) "a@example.com" "pw" Samples.plainA).1
      = Completion.returned (AuthResult.failure "Network request failed") ∧
    (login (some Samples.downAuth) "a@example.com" "pw" Samples.plainA).2.1.isLoadingSession
      = false ∧
    (signInWithGoogle (some Samples.downAuth) Samples.plainA).1
      = Completion.returned (AuthResult.failure "Network request failed") ∧
    (signInWithGoogle (some Samples.downAuth) Samples.plainA).2.1.isLoadingSession = false ∧
    (logout (some Samples.downAuth) Samples.plainA).1 = Completion.returned () ∧
    (logout (some Samples.downAuth) Samples.plainA).2.1.isLoadingSession = true ∧
    (logout (some Samples.signOutErrorAuth) Samples.plainA).1 = Completion.returned () ∧
    (logout (some Samples.signOutErrorAuth) Samples.plainA).2.1.isLoadingSession = true := by
  decide

theorem handleSession_applies (authSession : Option Session) (st : ProviderState) :
    (handleSession authSession st).1.session = authSession ∧
    (handleSession authSession st).1.user = authSession.bind (fun s => s.user) ∧
    (handleSession authSession st).1.isLoadingSession = false := by
  unfold handleSession
  cases hu : authSession.bind (fun s => s.user) with
  | none => simp
  | some u =>
    by_cases ht : truthyStr u.id = true
    · simp [loadUserProfileDataStart, ht]
    · have ht2 : truthyStr u.id = false := by simpa using ht
      simp [ht2]

theorem onAuthStateChange_applies (event : String) (authSession : Option Session)
    (st : ProviderState) :
    (onAuthStateChange event authSession st).1.session = authSession ∧
    (onAuthStateChange event authSession st).1.user = authSession.bind (fun s => s.user) ∧
    (onAuthStateChange event authSession st).1.isLoadingSession = false := by
  unfold onAuthStateChange
  exact handleSession_applies authSession _

theorem login_frame (supabase : Option AuthService) (email password : String)
    (st : ProviderState) :
    (login supabase email password st).2.1.session = st.session ∧
    (login supabase email password st).2.1.user = st.user := by
  cases supabase with
  | none => simp [login]
  | some auth =>
    cases h : auth.signInWithPassword email password with
    | rejected e => simp [login, h]
    | resolved err => cases err <;> simp [login, h]

theorem signInWithGoogle_frame (supabase : Option AuthService) (st : ProviderState) :
    (signInWithGoogle supabase st).2.1.session = st.session ∧
    (signInWithGoogle supabase st).2.1.user = st.user := by
  cases supabase with
  | none => simp [signInWithGoogle]
  | some auth =>
    cases h : auth.signInWithOAuth "google" with
    | rejected e => simp [signInWithGoogle, h]
    | resolved err => cases err <;> simp [signInWithGoogle, h]

theorem logout_frame (supabase : Option AuthService) (st : ProviderState) :
    (logout supabase st).2.1.session = st.session ∧
    (logout supabase st).2.1.user = st.user := by
  cases supabase with
  | none => simp [logout]
  | some auth => cases h : auth.signOut <;> simp [logout, h]

theorem storeStep_preserves_derivation (st : ProviderState) (t : StoreStep)
    (h : st.user = st.session.bind (fun s => s.user)) :
    (storeStep st t).user = (storeStep st t).session.bind (fun s => s.user) := by
  cases t with
  | initialCheckSettles r =>
    cases r with
    | resolved a =>
      have ha := handleSession_applies a st
      simp only [storeStep, initialSessionSettles]
      rw [ha.1, ha.2.1]
    | rejected e =>
      have ha := handleSession_applies none st
      simp only [storeStep, initialSessionSettles]
      rw [ha.1, ha.2.1]
  | authEvent event a =>
    have ha := onAuthStateChange_applies event a st
    simp only [storeStep]
    rw [ha.1, ha.2.1]
  | fetchSettles r =>
    have hf := loadUserProfileDataResume_frame r st
    simp only [storeStep]
    rw [hf.1, hf.2.1, h]
  | login supabase email password =>
    have hf := login_frame supabase email password st
    simp only [storeStep]
    rw [hf.1, hf.2, h]
  | signInWithGoogle supabase =>
    have hf := signInWithGoogle_frame supabase st
    simp only [storeStep]
    rw [hf.1, hf.2, h]
  | logout supabase =>
    have hf := logout_frame supabase st
    simp only [storeStep]
    rw [hf.1, hf.2, h]

theorem foldl_preserves_derivation (steps : List StoreStep) :
    ∀ st : ProviderState, st.user = st.session.bind (fun s => s.user) →
      (steps.foldl storeStep st).user
        = (steps.foldl storeStep st).session.bind (fun s => s.user) := by
  induction steps with
  | nil => intro st h; exact h
  | cons t rest ih =>
    intro st h
    exact ih (storeStep st t) (storeStep_preserves_derivation st t h)

/-- C17. In every state reached from the initial one by transitions of the session
store (the initial check settling, an auth event, a profile fetch settling, `login`,
`signInWithGoogle`, `logout`), user is the user of the session when there is a session
with a user and null otherwise. From any such state, after the initial check fails
session is absent and loading is false, and after the initial check resolves or an auth
event is handled session is the delivered session and loading is false. -/
theorem user_derived_from_session (steps : List StoreStep) :
    (reach steps).user = (reach steps).session.bind (fun s => s.user) ∧
    (∀ e, (storeStep (reach steps) (StoreStep.initialCheckSettles (Awaited.rejected e))).session
        = none ∧
      (storeStep (reach steps)
        (StoreStep.initialCheckSettles (Awaited.rejected e))).isLoadingSession = false) ∧
    (∀ a, (storeStep (reach steps) (StoreStep.initialCheckSettles (Awaited.resolved a))).session
        = a ∧
      (storeStep (reach steps)
        (StoreStep.initialCheckSettles (Awaited.resolved a))).isLoadingSession = false) ∧
    (∀ event a, (storeStep (reach steps) (StoreStep.authEvent event a)).session = a ∧
      (storeStep (reach steps) (StoreStep.authEvent event a)).isLoadingSession = false) := by
  refine ⟨foldl_preserves_derivation steps ProviderState.initial rfl, ?_, ?_, ?_⟩
  · intro e
    have ha := handleSession_applies none (reach steps)
    exact ⟨ha.1, ha.2.2⟩
  · intro a
    have ha := handleSession_applies a (reach steps)
    exact ⟨ha.1, ha.2.2⟩
  · intro event a
    have ha := onAuthStateChange_applies event a (reach steps)
    exact ⟨ha.1, ha.2.2⟩

/-- C20. `fetchBusinesses` never throws. It returns the fetched rows when the query
resolves with a row array and no error, and the empty list when the query resolves with
an error, rejects, or resolves with null data and no error. -/
theorem fetchBusinesses_defaults_to_empty (query : Awaited BusinessesResponse) :
    (∃ rows, (fetchBusinesses query).1 = Completion.returned rows) ∧
    (∀ rows, query = Awaited.resolved { data := some rows, error := none } →
      (fetchBusinesses query).1 = Completion.returned rows) ∧
    (∀ data e, query = Awaited.resolved { data := data, error := some e } →
      (fetchBusinesses query).1 = Completion.returned []) ∧
    (∀ e, query = Awaited.rejected e → (fetchBusinesses query).1 = Completion.returned []) ∧
    (query = Awaited.resolved { data := none, error := none } →
      (fetchBusinesses query).1 = Completion.returned []) := by
  refine ⟨?_, ?_, ?_, ?_, ?_⟩
  · cases query with
    | rejected e => exact ⟨[], rfl⟩
    | resolved resp =>
      rcases resp with ⟨data, error⟩
      cases error with
      | some e => exact ⟨[], rfl⟩
      | none =>
        cases data with
        | none => exact ⟨[], rfl⟩
        | some rows => exact ⟨rows, rfl⟩
  · intro rows h; subst h; rfl
  · intro data e h; subst h; rfl
  · intro e h; subst h; rfl
  · intro h; subst h; rfl

end AppContext

/-! ## Client module -/

namespace Database

/-- The module exports `null` exactly when a credential is missing, and calls
`createClient` exactly when both are present; it never throws. -/
theorem supabase_null_iff_missing (extra : Option Extra)
    (createClient : String → String → AppContext.AuthService) :
    (∃ client, (supabase extra createClient).1 = Completion.returned client) ∧
    ((supabase extra createClient).1 = Completion.returned none ↔
      ¬ ∃ x, extra = some x ∧ x.supabaseUrl.truthy = true ∧ x.supabaseAnonKey.truthy = true) ∧
    ((∃ url key, ModuleCall.createClient url key ∈ (supabase extra createClient).2) ↔
      ∃ x, extra = some x ∧ x.supabaseUrl.truthy = true ∧ x.supabaseAnonKey.truthy = true) := by
  cases extra with
  | none => simp [supabase, JsId.truthy]
  | some x =>
    by_cases hu : x.supabaseUrl.truthy = true
    · by_cases hk : x.supabaseAnonKey.truthy = true
      · simp [supabase, hu, hk]
      · simp [supabase, hu, hk]
    · simp [supabase, hu]

/-- Evaluation for C18: with the configuration missing, or the anon key missing, the
module exports `null` without calling `createClient`, and with both present it calls
it; the session effect of `AppProvider` run against the exported `null` throws. -/
theorem missing_credentials_break_startup :
    supabase none Samples.createClient
      = (Completion.returned none,
          [ModuleCall.consoleWarn
            "Supabase not initialized: missing credentials. App will still load."]) ∧
    (supabase (some Samples.keylessExtra) Samples.createClient).1 = Completion.returned none ∧
    (supabase (some Samples.completeExtra) Samples.createClient).2
      = [ModuleCall.createClient "https://project.supabase.co" "anon"] ∧
    AppContext.sessionListenerEffect none
      = (Completion.threw AppContext.nullClientError, []) := by
  refine ⟨rfl, rfl, rfl, rfl⟩

end Database
